import Mathlib

/-!
# DPF-Plugins: 3BandSplitter DSP and the VST3 UI message bridge

Shallow embedding of

* `plugins/3BandSplitter/DistrhoPlugin3BandSplitter.cpp` (namespace `Splitter`), and
* `dpf/distrho/src/DistrhoUIVST3.cpp` (namespace `UIBridge`),

followed by the theorems that settle the specification claims.

Conventions of the embedding.

* The DSP arithmetic is carried out in an arbitrary linearly ordered field `α`
  (exact arithmetic: `ℚ` for evaluation, `ℝ` for the claims stated over the reals).
  `std::exp` is not a field operation, so it is a parameter (`Env.exp`).
* `getSampleRate()` belongs to the `Plugin` base class, which is not part of the
  sources; the sample rate is read from the environment `Env` of every call.
* Pointers are natural numbers, nullable pointers are `Option`.
-/

namespace Splitter

/-! ## Data model of the splitter -/

/-- Constant `kAMP_DB = 8.656170245f`. -/
def kAMP_DB {α : Type} [LinearOrderedField α] : α := 8656170245 / 1000000000

/-- Constant `kDC_ADD = 1e-30f`. -/
def kDC_ADD {α : Type} [LinearOrderedField α] : α := 1 / 10 ^ 30

/-- Constant `kPI = 3.141592654f`. -/
def kPI {α : Type} [LinearOrderedField α] : α := 3141592654 / 1000000000

/-- Rounding to the nearest `float` (binary32, 24-bit significand) of a value between
1/2 and 1, where consecutive `float` values are `2^-24` apart; a value half way between
two of them goes up, as it does at `1 - 2^-25` under round-to-nearest-even. -/
def roundFloatUnit {α : Type} [LinearOrderedField α] [FloorRing α] (x : α) : α :=
  (⌊x * 2 ^ 24 + 1 / 2⌋ : α) / 2 ^ 24

/-- Parameter indices: the cases of the `switch (index)` statements, in the order of
the source; `other` is every index that reaches the `default` (or no) branch. -/
inductive ParamIndex where
  | paramLow
  | paramMid
  | paramHigh
  | paramMaster
  | paramLowMidFreq
  | paramMidHighFreq
  | other (n : Nat)
  deriving DecidableEq, Repr

/-- What a call reads from outside the object: `getSampleRate()` of the base class
and `std::exp`. -/
structure Env (α : Type) where
  sampleRate : α
  exp : α → α

/-- Member variables of `DistrhoPlugin3BandSplitter`. -/
structure Plugin (α : Type) where
  fLow : α
  fMid : α
  fHigh : α
  fMaster : α
  fLowMidFreq : α
  fMidHighFreq : α
  lowVol : α
  midVol : α
  highVol : α
  outVol : α
  freqLP : α
  freqHP : α
  xLP : α
  a0LP : α
  b1LP : α
  xHP : α
  a0HP : α
  b1HP : α
  out1LP : α
  out2LP : α
  out1HP : α
  out2HP : α
  tmp1LP : α
  tmp2LP : α
  tmp1HP : α
  tmp2HP : α

/-- The six output buffers `outputs[0] .. outputs[5]` (`out1 .. out6` in `run`), each a
map from frame index to sample. The buffers are taken to be pairwise distinct and
distinct from the input buffers. -/
structure Outputs (α : Type) where
  out1 : Nat → α
  out2 : Nat → α
  out3 : Nat → α
  out4 : Nat → α
  out5 : Nat → α
  out6 : Nat → α

/-- Indexing `outputs[k]` for `k = 0 .. 5` (any other `k` is not a buffer of the plugin). -/
def Outputs.port {α : Type} (o : Outputs α) (k : Nat) : Nat → α :=
  match k with
  | 0 => o.out1
  | 1 => o.out2
  | 2 => o.out3
  | 3 => o.out4
  | 4 => o.out5
  | _ => o.out6

variable {α : Type} [LinearOrderedField α]

/-! ## Operations of the splitter -/

/-- Function `getParameterValue(index)`. -/
def getParameterValue (s : Plugin α) (index : ParamIndex) : α :=
  match index with
  | .paramLow => s.fLow
  | .paramMid => s.fMid
  | .paramHigh => s.fHigh
  | .paramMaster => s.fMaster
  | .paramLowMidFreq => s.fLowMidFreq
  | .paramMidHighFreq => s.fMidHighFreq
  | .other _ => 0

/-- Function `setParameterValue(index, value)`. -/
def setParameterValue (e : Env α) (s : Plugin α) (index : ParamIndex) (value : α) : Plugin α :=
  if e.sampleRate ≤ 0 then s
  else
    match index with
    | .paramLow =>
        { s with fLow := value, lowVol := e.exp ((value / 48) * 48 / kAMP_DB) }
    | .paramMid =>
        { s with fMid := value, midVol := e.exp ((value / 48) * 48 / kAMP_DB) }
    | .paramHigh =>
        { s with fHigh := value, highVol := e.exp ((value / 48) * 48 / kAMP_DB) }
    | .paramMaster =>
        { s with fMaster := value, outVol := e.exp ((value / 48) * 48 / kAMP_DB) }
    | .paramLowMidFreq =>
        let fLowMidFreq := min value s.fMidHighFreq
        let freqLP := fLowMidFreq
        let xLP := e.exp (-2 * kPI * freqLP / e.sampleRate)
        { s with fLowMidFreq := fLowMidFreq, freqLP := freqLP,
                 xLP := xLP, a0LP := 1 - xLP, b1LP := -xLP }
    | .paramMidHighFreq =>
        let fMidHighFreq := max value s.fLowMidFreq
        let freqHP := fMidHighFreq
        let xHP := e.exp (-2 * kPI * freqHP / e.sampleRate)
        { s with fMidHighFreq := fMidHighFreq, freqHP := freqHP,
                 xHP := xHP, a0HP := 1 - xHP, b1HP := -xHP }
    | .other _ => s

/-- Function `activate()`. The quotient by the sample rate is the quotient of the field,
which is 0 at sample rate 0, where the `float` quotient is infinite or not a number: the
coefficient values of the embedding are those of the code for a non-zero sample rate. -/
def activate (e : Env α) (s : Plugin α) : Plugin α :=
  let sr := e.sampleRate
  let xLP := e.exp (-2 * kPI * s.freqLP / sr)
  let xHP := e.exp (-2 * kPI * s.freqHP / sr)
  { s with xLP := xLP, a0LP := 1 - xLP, b1LP := -xLP,
           xHP := xHP, a0HP := 1 - xHP, b1HP := -xHP }

/-- Function `deactivate()`. -/
def deactivate (s : Plugin α) : Plugin α :=
  { s with out1LP := 0, out2LP := 0, out1HP := 0, out2HP := 0,
           tmp1LP := 0, tmp2LP := 0, tmp1HP := 0, tmp2HP := 0 }

/-- Function `loadProgram(index)`; program 0 is the only one. -/
def loadProgram (e : Env α) (s : Plugin α) (index : Nat) : Plugin α :=
  if index ≠ 0 then s
  else
    activate e
      { s with fLow := 0, fMid := 0, fHigh := 0, fMaster := 0,
               fLowMidFreq := 220, fMidHighFreq := 2000,
               lowVol := 1, midVol := 1, highVol := 1, outVol := 1,
               freqLP := 200, freqHP := 2000 }

/-- The constructor: `loadProgram(0)` then `deactivate()`, run on the not yet
initialised members `raw`. -/
def construct (e : Env α) (raw : Plugin α) : Plugin α :=
  deactivate (loadProgram e raw 0)

/-- One iteration of the `for` loop of `run`, at frame `i`. -/
def runFrame (in1 in2 : Nat → α) (i : Nat) (so : Plugin α × Outputs α) :
    Plugin α × Outputs α :=
  let s := so.1
  let o := so.2
  let tmp1LP := s.a0LP * in1 i - s.b1LP * s.tmp1LP + kDC_ADD
  let tmp2LP := s.a0LP * in2 i - s.b1LP * s.tmp2LP + kDC_ADD
  let out1LP := tmp1LP - kDC_ADD
  let out2LP := tmp2LP - kDC_ADD
  let tmp1HP := s.a0HP * in1 i - s.b1HP * s.tmp1HP + kDC_ADD
  let tmp2HP := s.a0HP * in2 i - s.b1HP * s.tmp2HP + kDC_ADD
  let out1HP := in1 i - tmp1HP - kDC_ADD
  let out2HP := in2 i - tmp2HP - kDC_ADD
  ({ s with tmp1LP := tmp1LP, tmp2LP := tmp2LP, out1LP := out1LP, out2LP := out2LP,
            tmp1HP := tmp1HP, tmp2HP := tmp2HP, out1HP := out1HP, out2HP := out2HP },
   { out6 := Function.update o.out6 i (out2HP * s.highVol * s.outVol),
     out5 := Function.update o.out5 i (out1HP * s.highVol * s.outVol),
     out4 := Function.update o.out4 i ((in2 i - out2LP - out2HP) * s.midVol * s.outVol),
     out3 := Function.update o.out3 i ((in1 i - out1LP - out1HP) * s.midVol * s.outVol),
     out2 := Function.update o.out2 i (out2LP * s.lowVol * s.outVol),
     out1 := Function.update o.out1 i (out1LP * s.lowVol * s.outVol) })

/-- Function `run(inputs, outputs, frames)`: frames `0 .. frames - 1` in increasing order.
`in1`, `in2` are `inputs[0]`, `inputs[1]`; `o` holds the output buffers on entry. -/
def run (s : Plugin α) (in1 in2 : Nat → α) (o : Outputs α) :
    Nat → Plugin α × Outputs α
  | 0 => (s, o)
  | frames + 1 => runFrame in1 in2 frames (run s in1 in2 o frames)

/-- The part of the framework type `Parameter` that `initParameter` fills in:
`hints`, `name`, `symbol`, `unit` and `ranges.def`, `ranges.min`, `ranges.max`. -/
structure Parameter (α : Type) where
  hints : Nat
  name : String
  symbol : String
  unit : String
  ranges_def : α
  ranges_min : α
  ranges_max : α

/-- Function `initParameter(index, parameter)`. The flag `kParameterIsAutomatable` is a
constant of the framework headers and is passed in. -/
def initParameter (kParameterIsAutomatable : Nat) (index : ParamIndex)
    (parameter : Parameter α) : Parameter α :=
  match index with
  | .paramLow =>
      { hints := kParameterIsAutomatable, name := "Low", symbol := "low", unit := "dB",
        ranges_def := 0, ranges_min := -24, ranges_max := 24 }
  | .paramMid =>
      { hints := kParameterIsAutomatable, name := "Mid", symbol := "mid", unit := "dB",
        ranges_def := 0, ranges_min := -24, ranges_max := 24 }
  | .paramHigh =>
      { hints := kParameterIsAutomatable, name := "High", symbol := "high", unit := "dB",
        ranges_def := 0, ranges_min := -24, ranges_max := 24 }
  | .paramMaster =>
      { hints := kParameterIsAutomatable, name := "Master", symbol := "master", unit := "dB",
        ranges_def := 0, ranges_min := -24, ranges_max := 24 }
  | .paramLowMidFreq =>
      { hints := kParameterIsAutomatable, name := "Low-Mid Freq", symbol := "low_mid",
        unit := "Hz", ranges_def := 440, ranges_min := 0, ranges_max := 1000 }
  | .paramMidHighFreq =>
      { hints := kParameterIsAutomatable, name := "Mid-High Freq", symbol := "mid_high",
        unit := "Hz", ranges_def := 1000, ranges_min := 1000, ranges_max := 20000 }
  | .other _ => parameter

/-- Whether a value written to a cutoff parameter lies in the range `initParameter`
declares for it: `[0, 1000]` for low_mid, `[1000, 20000]` for mid_high; no condition on
the other indices. -/
def cutoffInDeclaredRange (index : ParamIndex) (value : α) : Prop :=
  match index with
  | .paramLowMidFreq => 0 ≤ value ∧ value ≤ 1000
  | .paramMidHighFreq => 1000 ≤ value ∧ value ≤ 20000
  | _ => True

/-- The range condition can be evaluated. -/
instance cutoffInDeclaredRange.decidable (index : ParamIndex) (value : α) :
    Decidable (cutoffInDeclaredRange index value) :=
  match index with
  | .paramLowMidFreq => inferInstanceAs (Decidable (0 ≤ value ∧ value ≤ 1000))
  | .paramMidHighFreq => inferInstanceAs (Decidable (1000 ≤ value ∧ value ≤ 20000))
  | .paramLow => isTrue trivial
  | .paramMid => isTrue trivial
  | .paramHigh => isTrue trivial
  | .paramMaster => isTrue trivial
  | .other _ => isTrue trivial

/-- One `setParameterValue(index, value)` call with the environment it runs in. -/
structure Write (α : Type) where
  env : Env α
  index : ParamIndex
  value : α

/-- State after the `setParameterValue` calls of `writes`, in order. -/
def applyWrites (s : Plugin α) (writes : List (Write α)) : Plugin α :=
  writes.foldl (fun t w => setParameterValue w.env t w.index w.value) s

/-- A host call on the plugin object. -/
inductive Op (α : Type) where
  | setParameterValue (index : ParamIndex) (value : α)
  | loadProgram (index : Nat)
  | activate
  | deactivate
  | run (in1 in2 : Nat → α) (o : Outputs α) (frames : Nat)

/-- Effect of one host call on the plugin state, in the environment of that call. -/
def step (s : Plugin α) (c : Env α × Op α) : Plugin α :=
  match c.2 with
  | .setParameterValue index value => setParameterValue c.1 s index value
  | .loadProgram index => loadProgram c.1 s index
  | .activate => activate c.1 s
  | .deactivate => deactivate s
  | .run in1 in2 o frames => (run s in1 in2 o frames).1

/-- State after the constructor followed by the calls of `trace`, in order. Every call
comes with its own environment, so the sample rate may change between calls. -/
def reach (e : Env α) (raw : Plugin α) (trace : List (Env α × Op α)) : Plugin α :=
  trace.foldl step (construct e raw)

end Splitter

namespace UIBridge

/-! ## Data model of the UI message bridge -/

/-- Result codes `v3_result` used by the bridge (the `travesty` headers are not part of
the sources; only the names matter here). `V3_TRUE` is the same code as `V3_OK`. -/
inductive V3Result where
  | V3_NO_INTERFACE
  | V3_OK
  | V3_FALSE
  | V3_INVALID_ARG
  | V3_NOT_IMPLEMENTED
  | V3_INTERNAL_ERR
  | V3_NOT_INITIALIZED
  | V3_NOMEM
  deriving DecidableEq, Repr

/-- Code `V3_TRUE`. -/
abbrev V3Result.V3_TRUE : V3Result := V3Result.V3_OK

/-- A non-null pointer; a nullable pointer is an `Option Ptr`. -/
abbrev Ptr := Nat

/-- A typed attribute value: integer (`int64_t`), floating point (`double`, carried as
an exact rational), UTF-16 string (its 16-bit units, without terminator) or binary blob. -/
inductive AttrVal where
  | int (v : Int)
  | float (v : ℚ)
  | string (units : List Nat)
  | binary (bytes : List Nat)
  deriving DecidableEq, Repr

/-- Modelled from the spec: the host-provided attribute list `v3_attribute_list`, a
mapping from string keys to typed attributes (the host owns the implementation). -/
abbrev AttrList := List (String × AttrVal)

/-- A host-provided message `v3_message`: `get_message_id` and `get_attributes`, each of
which may return a null pointer. -/
structure Message where
  msgid : Option String
  attrs : Option AttrList
  deriving DecidableEq, Repr

/-- A call made on the embedded UI toolkit object `fUI` (class `UIExporter`, not part of
the sources). Strings are the bytes of a C string, terminator excluded. -/
inductive UICall where
  | programLoaded (index : Nat)
  | parameterChanged (index : Nat) (value : ℚ)
  | stateChanged (key value : List Nat)
  | setSampleRate (sampleRate : ℚ) (doCallback : Bool)
  | plugin_idle
  | idleForVST3
  | notifyScaleFactorChanged (factor : ℚ)
  deriving DecidableEq, Repr

/-- The embedded `UIExporter fUI`: the value `getParameterOffset()` returns (a
`uint32_t`) and the calls made on the object so far, oldest first. -/
structure UIExporter where
  parameterOffset : Nat
  calls : List UICall
  deriving DecidableEq, Repr

/-- Compile-time switches of the translation unit. -/
structure Config where
  wantPrograms : Bool
  wantState : Bool
  deriving DecidableEq, Repr

/-- What the host answers when `createMessage` asks it for a message object: the result
of `create_instance`, whether the returned message pointer is non-null, and whether
`get_attributes` of that message is non-null. -/
structure HostReply where
  res : V3Result
  msg : Bool
  attrs : Bool
  deriving DecidableEq, Repr

/-- Outcome of the two `std::malloc` calls of the `state-set` branch: `none` is a null
pointer, `some b` a fresh buffer whose bytes are `b` (arbitrary on entry). -/
structure Alloc where
  key16 : Option (Nat → Nat)
  value16 : Option (Nat → Nat)

/-- Members of class `UIVst3`. The last field is not a member: it records every
`notify(fConnection, message)` delivered to a peer, oldest first, with the peer it
was delivered to. -/
structure UIVst3 where
  fView : Option Ptr
  fHostContext : Option Ptr
  fConnection : Option Ptr
  fFrame : Option Ptr
  fReadyForPluginData : Bool
  fScaleFactor : ℚ
  fUI : UIExporter
  sent : List (Ptr × Message)
  deriving DecidableEq, Repr

/-- Members of `dpf_ui_connection_point` other than the reference to the controller. -/
structure dpf_ui_connection_point where
  refcounter : Int
  other : Option Ptr
  deriving DecidableEq, Repr

/-- The connection-point adapter together with the `ScopedPointer<UIVst3>` it refers to
(owned by the view; null while no UI is attached). `point` is what `self` points to. -/
structure Bridge where
  point : Option dpf_ui_connection_point
  uivst3 : Option UIVst3
  deriving DecidableEq, Repr

/-! ## Integer conversions and the attribute container -/

/-- Wrap of an integer to `int64_t` (two's complement): what the compiled code leaves in
a 64-bit signed variable. It is the identity on `-2^63 .. 2^63 - 1`. -/
def wrapInt64 (x : Int) : Int := (x + 2 ^ 63) % 2 ^ 64 - 2 ^ 63

/-- Conversion `static_cast<uint32_t>` of an integer. -/
def toUInt32 (x : Int) : Nat := (x % 2 ^ 32).toNat

/-- Modelled from the spec: `set_int`, `set_float`, `set_string` of the host attribute
list store the value under the key, replacing an earlier one. -/
def AttrList.set (l : AttrList) (id : String) (v : AttrVal) : AttrList :=
  (l.filter (fun kv => kv.1 != id)) ++ [(id, v)]

/-- Modelled from the spec: `get_int` of the host attribute list; an absent or
differently typed attribute is a failure. -/
def AttrList.get_int (l : AttrList) (id : String) : V3Result × Int :=
  match l.lookup id with
  | some (.int v) => (.V3_OK, v)
  | _ => (.V3_FALSE, 0)

/-- Modelled from the spec: `get_float` of the host attribute list. -/
def AttrList.get_float (l : AttrList) (id : String) : V3Result × ℚ :=
  match l.lookup id with
  | some (.float v) => (.V3_OK, v)
  | _ => (.V3_FALSE, 0)

/-- Little-endian bytes of a sequence of 16-bit units. -/
def unitsToBytes : List Nat → List Nat
  | [] => []
  | u :: us => (u % 256) :: (u / 256 % 256) :: unitsToBytes us

/-- Copy of the first `n` bytes of `src` to the start of the buffer `dst`. -/
def memcpy (dst : Nat → Nat) (src : List Nat) (n : Nat) : Nat → Nat :=
  fun j => if j < n then src.getD j 0 else dst j

/-- Modelled from the spec: `get_string(attrs, id, buf, size)` of the host attribute
list copies the stored units, terminator included, into `buf`, at most `size` bytes. -/
def AttrList.get_string (l : AttrList) (id : String) (buf : Nat → Nat) (size : Nat) :
    V3Result × (Nat → Nat) :=
  match l.lookup id with
  | some (.string units) =>
      let bytes := unitsToBytes (units ++ [0])
      (.V3_OK, memcpy buf bytes (min bytes.length size))
  | _ => (.V3_FALSE, buf)

/-- Modelled from the spec: `ScopedUTF16String(s)` (defined on the plugin side), the
characters of the C string `s` widened to 16-bit units. -/
def ScopedUTF16String (s : List Nat) : List Nat := s

/-- Function `std::strlen`, on the bytes of a C string. -/
def strlen (s : List Nat) : Nat := s.length

/-- Read of element `i` of an `int16_t` buffer laid over the bytes `buf` (little endian,
as an unsigned 16-bit pattern). -/
def read16 (buf : Nat → Nat) (i : Nat) : Nat := buf (2 * i) % 256 + 256 * (buf (2 * i + 1) % 256)

/-- The loop `for (i = 0; i < n; ++i) key[i] = key16[i];` where `key` and `key16` are the
same memory: byte `i` receives the low 8 bits of unit `i`, for `i = 0 .. n - 1` in order. -/
def narrowLoop (buf : Nat → Nat) : Nat → (Nat → Nat)
  | 0 => buf
  | n + 1 => Function.update (narrowLoop buf n) n (read16 (narrowLoop buf n) n % 256)

/-- The C string a `char*` designates: the bytes before the first NUL, looking at no
more than the `size` bytes of the allocation. -/
def cstring (buf : Nat → Nat) (size : Nat) : List Nat :=
  ((List.range size).map buf).takeWhile (fun b => b != 0)

/-! ## The UI controller `UIVst3` -/

/-- The constructor of `UIVst3`; `parameterOffset` is what the freshly built `fUI`
answers to `getParameterOffset()`. -/
def UIVst3.new (view host connection frame : Option Ptr) (scaleFactor : ℚ)
    (parameterOffset : Nat) : UIVst3 :=
  { fView := view, fHostContext := host, fConnection := connection, fFrame := frame,
    fReadyForPluginData := false, fScaleFactor := scaleFactor,
    fUI := { parameterOffset := parameterOffset, calls := [] }, sent := [] }

/-- Helper `createMessage(id)`: `none` is the null pointer. -/
def UIVst3.createMessage (h : HostReply) (s : UIVst3) (id : String) : Option Message :=
  match s.fHostContext with
  | none => none
  | some _ =>
    if h.res ≠ V3Result.V3_TRUE then none
    else if h.msg = false then none
    else some { msgid := some id, attrs := if h.attrs then some [] else none }

/-- The common tail of the outbound operations: create the message `id`, fill its
attribute list with `fill` and deliver it to `fConnection` (known to be `point`). -/
def UIVst3.sendTo (h : HostReply) (s : UIVst3) (point : Ptr) (id : String)
    (fill : AttrList → AttrList) : UIVst3 :=
  match s.createMessage h id with
  | none => s
  | some message =>
    match message.attrs with
    | none => s
    | some attrlist =>
      { s with sent := s.sent ++ [(point, { message with attrs := some (fill attrlist) })] }

/-- Method `connect(point)`. -/
def UIVst3.connect (h : HostReply) (s : UIVst3) (point : Option Ptr) : UIVst3 :=
  match point with
  | none => s
  | some p =>
    let s1 := { s with fConnection := some p }
    s1.sendTo h p "init" (fun a => a.set "__dpf_msg_target__" (.int 1))

/-- Method `disconnect()`. -/
def UIVst3.disconnect (h : HostReply) (s : UIVst3) : UIVst3 :=
  match s.fConnection with
  | none => s
  | some p =>
    let s1 := { s with fReadyForPluginData := false }
    match s1.createMessage h "close" with
    | none => s1
    | some message =>
      match message.attrs with
      | none => s1
      | some attrlist =>
        { s1 with
          sent := s1.sent ++
            [(p, { message with attrs := some (attrlist.set "__dpf_msg_target__" (.int 1)) })],
          fConnection := none }

/-- Method `reconnectIfNeeded()`. -/
def UIVst3.reconnectIfNeeded (h : HostReply) (s : UIVst3) : UIVst3 :=
  match s.fConnection with
  | none => s
  | some p => s.connect h (some p)

/-- Helper `requestMorePluginData()`. -/
def UIVst3.requestMorePluginData (h : HostReply) (s : UIVst3) : UIVst3 :=
  match s.fConnection with
  | none => s
  | some p => s.sendTo h p "idle" (fun a => a.set "__dpf_msg_target__" (.int 1))

/-- Method `onTimer()` (host run-loop builds). -/
def UIVst3.onTimer (h : HostReply) (s : UIVst3) : UIVst3 :=
  let s1 :=
    if s.fReadyForPluginData then
      UIVst3.requestMorePluginData h { s with fReadyForPluginData := false }
    else s
  { s1 with fUI := { s1.fUI with calls := s1.fUI.calls ++ [.plugin_idle] } }

/-- Method `idleCallback()` (macOS and Windows builds). -/
def UIVst3.idleCallback (h : HostReply) (s : UIVst3) : UIVst3 :=
  let s1 :=
    if s.fReadyForPluginData then
      UIVst3.requestMorePluginData h { s with fReadyForPluginData := false }
    else s
  { s1 with fUI := { s1.fUI with calls := s1.fUI.calls ++ [.idleForVST3] } }

/-- Method `setState(key, value)` (state builds), `key` and `value` being C strings. -/
def UIVst3.setState (h : HostReply) (s : UIVst3) (key value : List Nat) : UIVst3 :=
  match s.fConnection with
  | none => s
  | some p =>
    s.sendTo h p "state-set" (fun a =>
      ((((a.set "__dpf_msg_target__" (.int 1)).set
        "key:length" (.int (strlen key))).set
        "value:length" (.int (strlen value))).set
        "key" (.string (ScopedUTF16String key))).set
        "value" (.string (ScopedUTF16String value)))

/-- The local array `midiData[3]` of `sendNote`; every element is stored as a `uint8_t`. -/
def midiData (channel note velocity : Nat) : List Nat :=
  [((if velocity ≠ 0 then 0x90 else 0x80) ||| channel) % 256, note % 256, velocity % 256]

/-- Method `sendNote(channel, note, velocity)` (builds with MIDI input). -/
def UIVst3.sendNote (h : HostReply) (s : UIVst3) (channel note velocity : Nat) : UIVst3 :=
  match s.fConnection with
  | none => s
  | some p =>
    s.sendTo h p "midi" (fun a =>
      (a.set "__dpf_msg_target__" (.int 1)).set
        "data" (.binary (midiData channel note velocity)))

/-- Record of a call on `fUI`. -/
def UIVst3.callUI (s : UIVst3) (c : UICall) : UIVst3 :=
  { s with fUI := { s.fUI with calls := s.fUI.calls ++ [c] } }

/-- The `parameter-set` branch of `notify`. The statement `rindex -= offset` is carried
out on the `int64_t` and wraps when the difference leaves the 64-bit range (a signed
overflow, undefined in the source language; the compiled code wraps). The sum
`value + 0.5` of the program branch is exact here; the `double` sum rounds, and the two
agree whenever `value + 0.5` is representable, as for integral values. -/
def UIVst3.notifyParameterSet (cfg : Config) (s : UIVst3) (attrs : AttrList) :
    V3Result × UIVst3 :=
  let r1 := attrs.get_int "rindex"
  if r1.1 ≠ .V3_OK then (r1.1, s) else
  let rindex := r1.2
  let r2 := attrs.get_float "value"
  if r2.1 ≠ .V3_OK then (r2.1, s) else
  let value := r2.2
  if cfg.wantPrograms = true ∧ rindex = 0 then
    if ¬ (value ≥ 0) then (.V3_INTERNAL_ERR, s)
    else (.V3_OK, s.callUI (.programLoaded (toUInt32 ⌊value + 1 / 2⌋)))
  else
    let rindex1 := wrapInt64 (rindex - (s.fUI.parameterOffset : Int))
    if ¬ (rindex1 ≥ 0) then (.V3_INTERNAL_ERR, s)
    else (.V3_OK, s.callUI (.parameterChanged (toUInt32 rindex1) value))

/-- The `state-set` branch of `notify`. -/
def UIVst3.notifyStateSet (heap : Alloc) (s : UIVst3) (attrs : AttrList) :
    V3Result × UIVst3 :=
  let r1 := attrs.get_int "key:length"
  if r1.1 ≠ .V3_OK then (r1.1, s) else
  let keyLength := r1.2
  if ¬ (keyLength ≥ 0) then (.V3_INTERNAL_ERR, s) else
  let r2 := attrs.get_int "value:length"
  if r2.1 ≠ .V3_OK then (r2.1, s) else
  let valueLength := r2.2
  if ¬ (valueLength ≥ 0) then (.V3_INTERNAL_ERR, s) else
  match heap.key16 with
  | none => (.V3_NOMEM, s)
  | some key16 =>
    match heap.value16 with
    | none => (.V3_NOMEM, s)
    | some value16 =>
      let r3 := attrs.get_string "key" key16 (2 * keyLength.toNat)
      if r3.1 ≠ .V3_OK then (r3.1, s) else
      let r4 := attrs.get_string "value" value16 (2 * valueLength.toNat)
      if r4.1 ≠ .V3_OK then (r4.1, s) else
      let key := Function.update (narrowLoop r3.2 keyLength.toNat) keyLength.toNat 0
      let value := Function.update (narrowLoop r4.2 valueLength.toNat) valueLength.toNat 0
      (.V3_OK, s.callUI (.stateChanged (cstring key (2 * (keyLength.toNat + 1)))
                                       (cstring value (2 * (valueLength.toNat + 1)))))

/-- The `sample-rate` branch of `notify`. -/
def UIVst3.notifySampleRate (s : UIVst3) (attrs : AttrList) : V3Result × UIVst3 :=
  let r := attrs.get_float "value"
  if r.1 ≠ .V3_OK then (r.1, s) else
  let sampleRate := r.2
  if ¬ (sampleRate > 0) then (.V3_INVALID_ARG, s)
  else (.V3_OK, s.callUI (.setSampleRate sampleRate true))

/-- Method `notify(message)`. -/
def UIVst3.notify (cfg : Config) (heap : Alloc) (s : UIVst3) (message : Message) :
    V3Result × UIVst3 :=
  match message.msgid with
  | none => (.V3_INVALID_ARG, s)
  | some msgid =>
    match message.attrs with
    | none => (.V3_INVALID_ARG, s)
    | some attrs =>
      if msgid = "ready" then
        if s.fReadyForPluginData then (.V3_INTERNAL_ERR, s)
        else (.V3_OK, { s with fReadyForPluginData := true })
      else if msgid = "parameter-set" then s.notifyParameterSet cfg attrs
      else if cfg.wantState = true ∧ msgid = "state-set" then s.notifyStateSet heap attrs
      else if msgid = "sample-rate" then s.notifySampleRate attrs
      else (.V3_NOT_IMPLEMENTED, s)

/-! ## The connection-point adapter `dpf_ui_connection_point` -/

/-- Static method `dpf_ui_connection_point::connect(self, other)`. -/
def dpf_ui_connection_point.connect (h : HostReply) (w : Bridge) (other : Option Ptr) :
    V3Result × Bridge :=
  match w.point with
  | none => (.V3_NOT_INITIALIZED, w)
  | some point =>
    if point.other ≠ none then (.V3_INVALID_ARG, w)
    else
      let point1 := { point with other := other }
      match w.uivst3 with
      | some uivst3 => (.V3_OK, { point := some point1, uivst3 := some (uivst3.connect h other) })
      | none => (.V3_OK, { w with point := some point1 })

/-- Static method `dpf_ui_connection_point::disconnect(self, other)`. -/
def dpf_ui_connection_point.disconnect (h : HostReply) (w : Bridge) (_other : Option Ptr) :
    V3Result × Bridge :=
  match w.point with
  | none => (.V3_NOT_INITIALIZED, w)
  | some point =>
    if point.other = none then (.V3_INVALID_ARG, w)
    else
      let point1 := { point with other := none }
      match w.uivst3 with
      | some uivst3 => (.V3_OK, { point := some point1, uivst3 := some (uivst3.disconnect h) })
      | none => (.V3_OK, { w with point := some point1 })

/-- Static method `dpf_ui_connection_point::notify(self, message)`. -/
def dpf_ui_connection_point.notify (cfg : Config) (heap : Alloc) (w : Bridge)
    (message : Message) : V3Result × Bridge :=
  match w.point with
  | none => (.V3_NOT_INITIALIZED, w)
  | some _ =>
    match w.uivst3 with
    | none => (.V3_NOT_INITIALIZED, w)
    | some uivst3 =>
      let r := uivst3.notify cfg heap message
      (r.1, { w with uivst3 := some r.2 })

/-- The constructor of `dpf_ui_connection_point`. -/
def dpf_ui_connection_point.new : dpf_ui_connection_point :=
  { refcounter := 1, other := none }

end UIBridge

namespace UIBridge

/-! ## Traces of controller operations -/

/-- An operation invoked on the UI controller from outside. -/
inductive UIOp where
  | notify (message : Message)
  | onTimer
  | idleCallback
  | connect (point : Option Ptr)
  | disconnect
  deriving DecidableEq, Repr

/-- One invocation: the operation together with what the environment answers during it
(the host for `createMessage`, the allocator for `std::malloc`). -/
structure Call where
  host : HostReply
  heap : Alloc
  op : UIOp

/-- Effect of one invocation: the result code, for `notify`, and the next state. A peer
that answers a delivered message by calling back into the controller is accounted for
as a later invocation: every outbound operation delivers its message as its last
action on the controller state. -/
def UIVst3.exec (cfg : Config) (s : UIVst3) (c : Call) : Option V3Result × UIVst3 :=
  match c.op with
  | .notify message => ((s.notify cfg c.heap message).1, (s.notify cfg c.heap message).2)
  | .onTimer => (none, s.onTimer c.host)
  | .idleCallback => (none, s.idleCallback c.host)
  | .connect point => (none, s.connect c.host point)
  | .disconnect => (none, s.disconnect c.host)

/-- State after the invocations of `trace`, in order. -/
def UIVst3.execAll (cfg : Config) (s : UIVst3) (trace : List Call) : UIVst3 :=
  trace.foldl (fun t c => (t.exec cfg c).2) s

/-- The two observable events of the polling protocol. -/
inductive Event where
  | readyAccepted
  | idleSent
  deriving DecidableEq, Repr

/-- Whether a delivered message is an `idle` request. -/
def isIdle (d : Ptr × Message) : Bool := d.2.msgid == some "idle"

/-- Whether the invocation is a `ready` message that `notify` accepts with `V3_OK`. -/
def acceptsReady (cfg : Config) (s : UIVst3) (c : Call) : Bool :=
  match c.op with
  | .notify message =>
      message.msgid == some "ready" && (s.exec cfg c).1 == some V3Result.V3_OK
  | _ => false

/-- Events of one invocation: an accepted `ready`, then one `idleSent` for every `idle`
message the invocation added to the delivery record. -/
def eventsOf (cfg : Config) (s : UIVst3) (c : Call) : List Event :=
  (if acceptsReady cfg s c then [Event.readyAccepted] else []) ++
    ((((s.exec cfg c).2.sent.drop s.sent.length).filter isIdle).map (fun _ => Event.idleSent))

/-- Events of a trace, in order of occurrence. -/
def events (cfg : Config) (s : UIVst3) : List Call → List Event
  | [] => []
  | c :: cs => eventsOf cfg s c ++ events cfg (s.exec cfg c).2 cs

/-- Alternation of an event sequence: every `idleSent` comes after a `readyAccepted`
with no other `idleSent` in between; `armed` tells whether one is pending on entry. -/
def alternates : Bool → List Event → Bool
  | _, [] => true
  | _, Event.readyAccepted :: es => alternates true es
  | armed, Event.idleSent :: es => armed && alternates false es

end UIBridge

/-! # Sample data used by the witnesses -/

namespace Splitter

/-- A state with unit gains, for evaluation over the rationals. -/
def unitGainState : Plugin ℚ :=
  { fLow := 0, fMid := 0, fHigh := 0, fMaster := 0, fLowMidFreq := 220, fMidHighFreq := 2000,
    lowVol := 1, midVol := 1, highVol := 1, outVol := 1, freqLP := 200, freqHP := 2000,
    xLP := 3 / 4, a0LP := 1 / 4, b1LP := -3 / 4, xHP := 1 / 2, a0HP := 1 / 2, b1HP := -1 / 2,
    out1LP := 0, out2LP := 0, out1HP := 0, out2HP := 0,
    tmp1LP := 5, tmp2LP := -2, tmp1HP := 1, tmp2HP := 7 }

/-- Output buffers holding zeros. -/
def silence : Outputs ℚ :=
  { out1 := fun _ => 0, out2 := fun _ => 0, out3 := fun _ => 0,
    out4 := fun _ => 0, out5 := fun _ => 0, out6 := fun _ => 0 }

/-- An environment at 48 kHz; the stand-in for `std::exp` over the rationals is a
rational function, its values play no part where it is used. -/
def rateEnv : Env ℚ :=
  { sampleRate := 48000, exp := fun x => 1 / (1 + x * x) }

end Splitter

namespace UIBridge

/-- A host that hands out messages with attribute lists. -/
def okHost : HostReply := { res := .V3_OK, msg := true, attrs := true }

/-- An allocator out of memory. -/
def noHeap : Alloc := { key16 := none, value16 := none }

/-- A `ready` message. -/
def readyMsg : Message := { msgid := some "ready", attrs := some [] }

/-- A freshly constructed controller with no endpoint and parameter offset 0. -/
def fresh : UIVst3 := UIVst3.new (some 1) (some 2) none (some 3) 1 0

/-- A freshly constructed controller with parameter offset 1. -/
def freshOffsetOne : UIVst3 := UIVst3.new (some 1) (some 2) none (some 3) 1 1

/-- The attribute list of a `parameter-set` message with the given `rindex` and `value`. -/
def parameterSetAttrs (rindex : Int) (value : ℚ) : AttrList :=
  [("__dpf_msg_target__", .int 2), ("rindex", .int rindex), ("value", .float value)]

/-- A `parameter-set` message with the given `rindex` and `value`. -/
def parameterSetMsg (rindex : Int) (value : ℚ) : Message :=
  { msgid := some "parameter-set", attrs := some (parameterSetAttrs rindex value) }

/-- A `parameter-set` message that carries `rindex = 0` and no `value` attribute. -/
def indexOnlyMsg : Message :=
  { msgid := some "parameter-set", attrs := some [("rindex", .int 0)] }

/-- An adapter with endpoint 7 registered, attached to the sample controller. -/
def connectedBridge : Bridge :=
  { point := some { refcounter := 1, other := some 7 },
    uivst3 := some { fresh with fConnection := some 7 } }

/-- A new adapter with no endpoint, attached to the sample controller. -/
def idleBridge : Bridge :=
  { point := some dpf_ui_connection_point.new, uivst3 := some fresh }

/-- The sample controller after an accepted `ready`. -/
def readyState : UIVst3 := { fresh with fReadyForPluginData := true }

/-- The sample controller connected to endpoint 7. -/
def connectedState : UIVst3 := { fresh with fConnection := some 7 }

/-- An allocator whose fresh buffers hold `0xFF` in every byte. -/
def dirtyHeap : Alloc := { key16 := some (fun _ => 255), value16 := some (fun _ => 255) }

/-- A controller connected to endpoint 7 whose host context is a null pointer. -/
def hostlessConnected : UIVst3 := UIVst3.new (some 1) none (some 7) (some 3) 1 0

/-- A host whose `create_instance` fails. -/
def refusingHost : HostReply := { res := .V3_NOT_IMPLEMENTED, msg := false, attrs := false }

/-- The sample controller connected to endpoint 7 after an accepted `ready`. -/
def connectedReady : UIVst3 := { connectedState with fReadyForPluginData := true }

/-- The attribute list of a `sample-rate` message with the given value. -/
def sampleRateAttrs (value : ℚ) : AttrList := [("value", .float value)]

/-- A `sample-rate` message with the given value. -/
def sampleRateMsg (value : ℚ) : Message :=
  { msgid := some "sample-rate", attrs := some (sampleRateAttrs value) }

/-- A message with an identifier of the given name and no attributes. -/
def plainMsg (id : String) : Message := { msgid := some id, attrs := some [] }

end UIBridge

namespace Splitter

/-- Members holding zero everywhere, over any field: the memory a constructor may find. -/
def blank {α : Type} [LinearOrderedField α] : Plugin α :=
  { fLow := 0, fMid := 0, fHigh := 0, fMaster := 0, fLowMidFreq := 0, fMidHighFreq := 0,
    lowVol := 0, midVol := 0, highVol := 0, outVol := 0, freqLP := 0, freqHP := 0,
    xLP := 0, a0LP := 0, b1LP := 0, xHP := 0, a0HP := 0, b1HP := 0,
    out1LP := 0, out2LP := 0, out1HP := 0, out2HP := 0,
    tmp1LP := 0, tmp2LP := 0, tmp1HP := 0, tmp2HP := 0 }

/-- An environment whose sample rate is 0: no sample rate has been set. -/
def stoppedEnv : Env ℚ :=
  { sampleRate := 0, exp := fun x => 1 / (1 + x * x) }

/-- A parameter record before `initParameter` has filled it in. -/
def emptyParameter {α : Type} [LinearOrderedField α] : Parameter α :=
  { hints := 0, name := "", symbol := "", unit := "",
    ranges_def := 0, ranges_min := 0, ranges_max := 1 }

/-- Three in-range writes at 48 kHz: low_mid 1000, mid_high 1000, low_gain 30. -/
def sampleWrites : List (Write ℚ) :=
  [⟨rateEnv, .paramLowMidFreq, 1000⟩, ⟨rateEnv, .paramMidHighFreq, 1000⟩,
   ⟨rateEnv, .paramLow, 30⟩]

end Splitter

/-! # Theorems -/

namespace Splitter

variable {α : Type} [LinearOrderedField α]

/-! ## Frames of `run` -/

/-- The loop of `run` never writes the four linear gains. -/
theorem run_gains (s : Plugin α) (in1 in2 : Nat → α) (o : Outputs α) (frames : Nat) :
    (run s in1 in2 o frames).1.lowVol = s.lowVol ∧
    (run s in1 in2 o frames).1.midVol = s.midVol ∧
    (run s in1 in2 o frames).1.highVol = s.highVol ∧
    (run s in1 in2 o frames).1.outVol = s.outVol := by
  induction frames with
  | zero => simp [run]
  | succ n ih => simpa [run, runFrame] using ih

/-- The loop of `run` never writes the cutoff parameters. -/
theorem run_cutoffs (s : Plugin α) (in1 in2 : Nat → α) (o : Outputs α) (frames : Nat) :
    (run s in1 in2 o frames).1.fLowMidFreq = s.fLowMidFreq ∧
    (run s in1 in2 o frames).1.fMidHighFreq = s.fMidHighFreq := by
  induction frames with
  | zero => simp [run]
  | succ n ih => simpa [run, runFrame] using ih

/-- Claim C1. Complementary reconstruction: with all four linear gains equal to 1, after
`run` over `frames` frames every frame `i < frames` satisfies
`outputs[0][i] + outputs[2][i] + outputs[4][i] = inputs[0][i]` and
`outputs[1][i] + outputs[3][i] + outputs[5][i] = inputs[1][i]`, for every filter state,
coefficient set and input block, in exact arithmetic (any ordered field, the reals
included). -/
theorem run_complementary_reconstruction (s : Plugin α) (in1 in2 : Nat → α)
    (o : Outputs α) (frames i : Nat)
    (hlow : s.lowVol = 1) (hmid : s.midVol = 1) (hhigh : s.highVol = 1)
    (hout : s.outVol = 1) (hi : i < frames) :
    ((run s in1 in2 o frames).2.port 0 i + (run s in1 in2 o frames).2.port 2 i
        + (run s in1 in2 o frames).2.port 4 i = in1 i) ∧
    ((run s in1 in2 o frames).2.port 1 i + (run s in1 in2 o frames).2.port 3 i
        + (run s in1 in2 o frames).2.port 5 i = in2 i) := by
  induction frames with
  | zero => exact absurd hi (Nat.not_lt_zero i)
  | succ n ih =>
    obtain ⟨g1, g2, g3, g4⟩ := run_gains s in1 in2 o n
    rw [hlow] at g1
    rw [hmid] at g2
    rw [hhigh] at g3
    rw [hout] at g4
    rcases Nat.lt_succ_iff_lt_or_eq.mp hi with hlt | heq
    · have hne : i ≠ n := Nat.ne_of_lt hlt
      have h := ih hlt
      simpa [run, runFrame, Outputs.port, Function.update_noteq hne] using h
    · subst heq
      simp only [run, runFrame, Outputs.port, Function.update_same, g1, g2, g3, g4]
      constructor <;> ring

/-- Witness of C1: two frames of a rational input block, read at frame 1. -/
theorem run_complementary_reconstruction_witness :
    ((run unitGainState (fun n => 3 * n + 1) (fun n => 2 - n) silence 2).2.port 0 1
      + (run unitGainState (fun n => 3 * n + 1) (fun n => 2 - n) silence 2).2.port 2 1
      + (run unitGainState (fun n => 3 * n + 1) (fun n => 2 - n) silence 2).2.port 4 1
        = (fun n : Nat => (3 * n + 1 : ℚ)) 1) ∧
    ((run unitGainState (fun n => 3 * n + 1) (fun n => 2 - n) silence 2).2.port 1 1
      + (run unitGainState (fun n => 3 * n + 1) (fun n => 2 - n) silence 2).2.port 3 1
      + (run unitGainState (fun n => 3 * n + 1) (fun n => 2 - n) silence 2).2.port 5 1
        = (fun n : Nat => (2 - n : ℚ)) 1) :=
  run_complementary_reconstruction unitGainState (fun n => 3 * n + 1) (fun n => 2 - n)
    silence 2 1 rfl rfl rfl rfl (by decide)

end Splitter

namespace Splitter

variable {α : Type} [LinearOrderedField α]

/-! ## Cutoff ordering and clamping -/

/-- Every host call keeps `fLowMidFreq ≤ fMidHighFreq`. -/
theorem step_cutoff_order (s : Plugin α) (c : Env α × Op α)
    (h : s.fLowMidFreq ≤ s.fMidHighFreq) :
    (step s c).fLowMidFreq ≤ (step s c).fMidHighFreq := by
  obtain ⟨e, op⟩ := c
  cases op with
  | setParameterValue index value =>
    simp only [step, setParameterValue]
    split
    · exact h
    · cases index <;> simp [h]
  | loadProgram index =>
    simp only [step, loadProgram]
    split
    · exact h
    · simp only [activate]
      norm_num
  | activate => simpa [step, activate] using h
  | deactivate => simpa [step, deactivate] using h
  | run in1 in2 o frames =>
    obtain ⟨h1, h2⟩ := run_cutoffs s in1 in2 o frames
    simp only [step, h1, h2]
    exact h

/-- The ordering survives any sequence of host calls. -/
theorem foldl_cutoff_order (trace : List (Env α × Op α)) (s : Plugin α)
    (h : s.fLowMidFreq ≤ s.fMidHighFreq) :
    (trace.foldl step s).fLowMidFreq ≤ (trace.foldl step s).fMidHighFreq := by
  induction trace generalizing s with
  | nil => exact h
  | cons c cs ih => exact ih (step s c) (step_cutoff_order s c h)

/-- Claim C2. Cutoff ordering invariant: in every state reachable from the constructor
through any sequence of `setParameterValue`, `loadProgram`, `activate`, `deactivate` and
`run` calls (any indices, any values, any sample rate, which may change from call to
call, any uninitialised memory under the constructor), `fLowMidFreq ≤ fMidHighFreq`. -/
theorem reach_cutoff_order (e : Env α) (raw : Plugin α) (trace : List (Env α × Op α)) :
    (reach e raw trace).fLowMidFreq ≤ (reach e raw trace).fMidHighFreq := by
  unfold reach
  apply foldl_cutoff_order
  simp only [construct, deactivate, loadProgram, activate, ne_eq, not_true_eq_false, if_false]
  norm_num

/-- Claim C3. Cutoff clamping: with sample rate > 0, after
`setParameterValue(paramLowMidFreq, v)` the stored low-mid cutoff is
`min(v, previous mid_high)`, hence exactly the previous mid_high when `v` is above it;
after `setParameterValue(paramMidHighFreq, v)` the stored mid-high cutoff is
`max(v, previous low_mid)`, hence exactly the previous low_mid when `v` is below it. -/
theorem setParameterValue_cutoff_clamp (e : Env α) (s : Plugin α) (v : α)
    (hsr : 0 < e.sampleRate) :
    (getParameterValue (setParameterValue e s .paramLowMidFreq v) .paramLowMidFreq
        = min v (getParameterValue s .paramMidHighFreq)) ∧
    (getParameterValue s .paramMidHighFreq < v →
      getParameterValue (setParameterValue e s .paramLowMidFreq v) .paramLowMidFreq
        = getParameterValue s .paramMidHighFreq) ∧
    (getParameterValue (setParameterValue e s .paramMidHighFreq v) .paramMidHighFreq
        = max v (getParameterValue s .paramLowMidFreq)) ∧
    (v < getParameterValue s .paramLowMidFreq →
      getParameterValue (setParameterValue e s .paramMidHighFreq v) .paramMidHighFreq
        = getParameterValue s .paramLowMidFreq) := by
  have hn : ¬ e.sampleRate ≤ 0 := not_le.mpr hsr
  refine ⟨?_, ?_, ?_, ?_⟩
  · simp [setParameterValue, getParameterValue, hn]
  · intro hv
    simp only [getParameterValue] at hv
    simp [setParameterValue, getParameterValue, hn, le_of_lt hv]
  · simp [setParameterValue, getParameterValue, hn]
  · intro hv
    simp only [getParameterValue] at hv
    simp [setParameterValue, getParameterValue, hn, le_of_lt hv]

/-- Witness of C3: at 48 kHz, on the sample state (cutoffs 220 Hz and 2000 Hz), writing
3000 Hz to low_mid stores 2000 Hz and writing 100 Hz to mid_high stores 220 Hz. -/
theorem setParameterValue_cutoff_clamp_witness :
    (getParameterValue (setParameterValue rateEnv unitGainState .paramLowMidFreq 3000)
        .paramLowMidFreq
        = getParameterValue unitGainState .paramMidHighFreq) ∧
    (getParameterValue (setParameterValue rateEnv unitGainState .paramMidHighFreq 100)
        .paramMidHighFreq
        = getParameterValue unitGainState .paramLowMidFreq) :=
  ⟨(setParameterValue_cutoff_clamp rateEnv unitGainState 3000 (by decide)).2.1 (by decide),
   (setParameterValue_cutoff_clamp rateEnv unitGainState 100 (by decide)).2.2.2 (by decide)⟩

end Splitter

namespace UIBridge

/-! ## Frame lemmas for the controller -/

/-- Helper `sendTo` either changes nothing or appends one message with the given id
to the delivery record, and touches nothing else. -/
theorem sendTo_cases (h : HostReply) (s : UIVst3) (p : Ptr) (id : String)
    (fill : AttrList → AttrList) :
    s.sendTo h p id fill = s ∨
    ∃ m : Message, m.msgid = some id ∧
      s.sendTo h p id fill = { s with sent := s.sent ++ [(p, m)] } := by
  unfold UIVst3.sendTo UIVst3.createMessage
  cases s.fHostContext with
  | none => exact Or.inl rfl
  | some hc =>
    by_cases h1 : h.res ≠ V3Result.V3_TRUE
    · simp [h1]
    · by_cases h2 : h.msg = false
      · simp [h2]
      · cases h3 : h.attrs
        · simp [h1, h2]
        · right
          refine ⟨{ msgid := some id, attrs := some (fill []) }, rfl, ?_⟩
          simp [h1, h2]

/-- The `parameter-set` branch only ever changes `fUI`. -/
theorem notifyParameterSet_frame (cfg : Config) (s : UIVst3) (attrs : AttrList) :
    (s.notifyParameterSet cfg attrs).2
      = { s with fUI := (s.notifyParameterSet cfg attrs).2.fUI } := by
  unfold UIVst3.notifyParameterSet
  dsimp only
  split_ifs <;> rfl

/-- The `state-set` branch only ever changes `fUI`. -/
theorem notifyStateSet_frame (heap : Alloc) (s : UIVst3) (attrs : AttrList) :
    (s.notifyStateSet heap attrs).2
      = { s with fUI := (s.notifyStateSet heap attrs).2.fUI } := by
  unfold UIVst3.notifyStateSet
  dsimp only
  split_ifs
  any_goals rfl
  cases heap.key16 with
  | none => rfl
  | some k =>
    cases heap.value16 with
    | none => rfl
    | some v =>
      dsimp only
      split_ifs <;> rfl

/-- The `sample-rate` branch only ever changes `fUI`. -/
theorem notifySampleRate_frame (s : UIVst3) (attrs : AttrList) :
    (s.notifySampleRate attrs).2
      = { s with fUI := (s.notifySampleRate attrs).2.fUI } := by
  unfold UIVst3.notifySampleRate
  dsimp only
  split_ifs <;> rfl

/-- Method `notify` never touches the delivery record, the endpoint, the host context
or the scale factor; and the ready flag changes only when a `ready` message is accepted,
which takes it from clear to set. -/
theorem notify_frame (cfg : Config) (heap : Alloc) (s : UIVst3) (m : Message) :
    (s.notify cfg heap m).2.sent = s.sent ∧
    (s.notify cfg heap m).2.fConnection = s.fConnection ∧
    ((m.msgid = some "ready" ∧ (s.notify cfg heap m).1 = V3Result.V3_OK ∧
        s.fReadyForPluginData = false ∧ (s.notify cfg heap m).2.fReadyForPluginData = true) ∨
     (¬ (m.msgid = some "ready" ∧ (s.notify cfg heap m).1 = V3Result.V3_OK) ∧
        (s.notify cfg heap m).2.fReadyForPluginData = s.fReadyForPluginData)) := by
  unfold UIVst3.notify
  cases hid : m.msgid with
  | none => simp
  | some msgid =>
    cases hat : m.attrs with
    | none => simp
    | some attrs =>
      dsimp only
      by_cases h1 : msgid = "ready"
      · subst h1
        cases hr : s.fReadyForPluginData <;> simp [hr]
      · simp only [h1, if_false]
        by_cases h2 : msgid = "parameter-set"
        · simp only [h2, if_true]
          rw [notifyParameterSet_frame]
          simp
        · simp only [h2, if_false]
          by_cases h3 : cfg.wantState = true ∧ msgid = "state-set"
          · simp only [h3, and_self, if_true]
            rw [notifyStateSet_frame]
            simp [h1]
          · simp only [h3, if_false]
            by_cases h4 : msgid = "sample-rate"
            · simp only [h4, if_true]
              rw [notifySampleRate_frame]
              simp
            · simp [h4, h1]

/-! ## Idle polling -/

/-- Helper `requestMorePluginData` sends at most one message, an `idle` one, and
leaves the ready flag alone. -/
theorem requestMorePluginData_cases (h : HostReply) (s : UIVst3) :
    (s.requestMorePluginData h).fReadyForPluginData = s.fReadyForPluginData ∧
    (s.requestMorePluginData h).fUI = s.fUI ∧
    ((s.requestMorePluginData h).sent = s.sent ∨
     ∃ p m, m.msgid = some "idle" ∧ (s.requestMorePluginData h).sent = s.sent ++ [(p, m)]) := by
  unfold UIVst3.requestMorePluginData
  cases s.fConnection with
  | none => simp
  | some p =>
    dsimp only
    rcases sendTo_cases h s p "idle"
      (fun a => a.set "__dpf_msg_target__" (.int 1)) with e | ⟨m, hm, e⟩
    · simp only [e]
      simp
    · rw [e]
      exact ⟨rfl, rfl, Or.inr ⟨p, m, hm, rfl⟩⟩

/-- Method `onTimer` leaves the ready flag clear; it sends nothing, or the flag was set
and it sends one `idle` message. -/
theorem onTimer_cases (h : HostReply) (s : UIVst3) :
    (s.onTimer h).fReadyForPluginData = false ∧
    ((s.onTimer h).sent = s.sent ∨
     (s.fReadyForPluginData = true ∧
       ∃ p m, m.msgid = some "idle" ∧ (s.onTimer h).sent = s.sent ++ [(p, m)])) := by
  unfold UIVst3.onTimer
  cases hr : s.fReadyForPluginData with
  | false => simp [hr]
  | true =>
    obtain ⟨h1, _, h3⟩ :=
      requestMorePluginData_cases h { s with fReadyForPluginData := false }
    simp only [if_true]
    refine ⟨h1, ?_⟩
    rcases h3 with e | ⟨p, m, hm, e⟩
    · exact Or.inl e
    · exact Or.inr ⟨by trivial, p, m, hm, e⟩

/-- Method `idleCallback` behaves like `onTimer` towards the flag and the peer. -/
theorem idleCallback_cases (h : HostReply) (s : UIVst3) :
    (s.idleCallback h).fReadyForPluginData = false ∧
    ((s.idleCallback h).sent = s.sent ∨
     (s.fReadyForPluginData = true ∧
       ∃ p m, m.msgid = some "idle" ∧ (s.idleCallback h).sent = s.sent ++ [(p, m)])) := by
  unfold UIVst3.idleCallback
  cases hr : s.fReadyForPluginData with
  | false => simp [hr]
  | true =>
    obtain ⟨h1, _, h3⟩ :=
      requestMorePluginData_cases h { s with fReadyForPluginData := false }
    simp only [if_true]
    refine ⟨h1, ?_⟩
    rcases h3 with e | ⟨p, m, hm, e⟩
    · exact Or.inl e
    · exact Or.inr ⟨by trivial, p, m, hm, e⟩

/-- Method `connect` leaves the ready flag alone and sends at most one message, an
`init` one. -/
theorem connect_cases (h : HostReply) (s : UIVst3) (point : Option Ptr) :
    (s.connect h point).fReadyForPluginData = s.fReadyForPluginData ∧
    ((s.connect h point).sent = s.sent ∨
     ∃ p m, m.msgid = some "init" ∧ (s.connect h point).sent = s.sent ++ [(p, m)]) := by
  unfold UIVst3.connect
  cases point with
  | none => simp
  | some p =>
    dsimp only
    rcases sendTo_cases h { s with fConnection := some p } p "init"
      (fun a => a.set "__dpf_msg_target__" (.int 1)) with e | ⟨m, hm, e⟩
    · simp only [e]
      simp
    · rw [e]
      exact ⟨rfl, Or.inr ⟨p, m, hm, rfl⟩⟩

/-- Method `disconnect` never sets the ready flag and sends at most one message, a
`close` one. -/
theorem disconnect_cases (h : HostReply) (s : UIVst3) :
    ((s.disconnect h).fReadyForPluginData = true → s.fReadyForPluginData = true) ∧
    ((s.disconnect h).sent = s.sent ∨
     ∃ p m, m.msgid = some "close" ∧ (s.disconnect h).sent = s.sent ++ [(p, m)]) := by
  unfold UIVst3.disconnect UIVst3.createMessage
  cases s.fConnection with
  | none => simp
  | some p =>
    cases s.fHostContext with
    | none => simp
    | some hc =>
      by_cases h1 : h.res ≠ V3Result.V3_TRUE
      · simp [h1]
      · by_cases h2 : h.msg = false
        · simp [h2]
        · cases h3 : h.attrs
          · simp [h1, h2]
          · simp only [h1, h2, if_false]
            refine ⟨by simp, Or.inr ⟨p, _, rfl, rfl⟩⟩

/-- Events of a single invocation: none, with the ready flag not newly set; or one
accepted `ready`; or one `idle` sent while the flag was set, which clears it. -/
theorem eventsOf_cases (cfg : Config) (s : UIVst3) (c : Call) :
    (eventsOf cfg s c = [] ∧
      ((s.exec cfg c).2.fReadyForPluginData = true → s.fReadyForPluginData = true)) ∨
    eventsOf cfg s c = [Event.readyAccepted] ∨
    (eventsOf cfg s c = [Event.idleSent] ∧ s.fReadyForPluginData = true ∧
      (s.exec cfg c).2.fReadyForPluginData = false) := by
  obtain ⟨host, heap, op⟩ := c
  cases op with
  | notify m =>
    obtain ⟨hs, _, hf⟩ := notify_frame cfg heap s m
    rcases hf with ⟨h1, h2, _, _⟩ | ⟨h1, h2⟩
    · right; left
      simp [eventsOf, acceptsReady, UIVst3.exec, hs, h1, h2]
    · left
      refine ⟨?_, ?_⟩
      · have : ¬ (m.msgid = some "ready" ∧
            (s.notify cfg heap m).1 = V3Result.V3_OK) := h1
        simp [eventsOf, acceptsReady, UIVst3.exec, hs, this]
      · simp only [UIVst3.exec, h2]
        exact id
  | onTimer =>
    obtain ⟨h1, h2⟩ := onTimer_cases host s
    rcases h2 with e | ⟨hr, p, m, hm, e⟩
    · left
      simp [eventsOf, acceptsReady, UIVst3.exec, e, h1]
    · right; right
      simp [eventsOf, acceptsReady, UIVst3.exec, e, h1, hr, isIdle, hm]
  | idleCallback =>
    obtain ⟨h1, h2⟩ := idleCallback_cases host s
    rcases h2 with e | ⟨hr, p, m, hm, e⟩
    · left
      simp [eventsOf, acceptsReady, UIVst3.exec, e, h1]
    · right; right
      simp [eventsOf, acceptsReady, UIVst3.exec, e, h1, hr, isIdle, hm]
  | connect point =>
    obtain ⟨h1, h2⟩ := connect_cases host s point
    left
    rcases h2 with e | ⟨p, m, hm, e⟩
    · simp [eventsOf, acceptsReady, UIVst3.exec, e, h1]
    · simp [eventsOf, acceptsReady, UIVst3.exec, e, h1, isIdle, hm]
  | disconnect =>
    obtain ⟨h1, h2⟩ := disconnect_cases host s
    left
    rcases h2 with e | ⟨p, m, hm, e⟩
    · simp only [eventsOf, acceptsReady, UIVst3.exec, e]
      exact ⟨by simp, h1⟩
    · simp only [eventsOf, acceptsReady, UIVst3.exec, e]
      exact ⟨by simp [isIdle, hm], h1⟩

/-- Alternation holds from every state whose ready flag, when set, is matched by a
pending accepted `ready`. -/
theorem events_alternate (cfg : Config) (trace : List Call) (s : UIVst3) (armed : Bool)
    (h : s.fReadyForPluginData = true → armed = true) :
    alternates armed (events cfg s trace) = true := by
  induction trace generalizing s armed with
  | nil => rfl
  | cons c cs ih =>
    simp only [events]
    rcases eventsOf_cases cfg s c with ⟨e, hf⟩ | e | ⟨e, hs, hf⟩
    · rw [e]
      exact ih _ armed (fun h2 => h (hf h2))
    · rw [e]
      exact ih _ true (fun _ => rfl)
    · rw [e]
      simp only [List.singleton_append, alternates, h hs, Bool.true_and]
      exact ih _ false (fun h2 => by rw [hf] at h2; exact absurd h2 (by decide))

/-- In an alternating sequence the `idle` requests never outnumber the accepted
`ready` messages, up to the one pending on entry. -/
theorem alternates_count (es : List Event) (armed : Bool)
    (h : alternates armed es = true) :
    es.count Event.idleSent ≤ es.count Event.readyAccepted + (if armed then 1 else 0) := by
  induction es generalizing armed with
  | nil => simp
  | cons e es ih =>
    cases e with
    | readyAccepted =>
      have := ih true (by simpa [alternates] using h)
      simp only [List.count_cons, beq_iff_eq] at *
      simp at this ⊢
      split <;> omega
    | idleSent =>
      simp only [alternates, Bool.and_eq_true] at h
      have := ih false h.2
      simp only [List.count_cons] at *
      simp [h.1] at this ⊢
      omega

/-- Claim C4. Idle polling is strictly alternating: in every trace of controller
operations (`notify` with any message, `onTimer`, `idleCallback`, `connect`,
`disconnect`, under any host and allocator behaviour) starting from a freshly
constructed controller, every `idle` message sent comes after an accepted `ready` with
no other `idle` in between (so none before the first accepted `ready` and at most one
between two consecutive ones), and the number of `idle` requests sent does not exceed
the number of `ready` messages accepted with `V3_OK`. -/
theorem idle_polling_alternates (cfg : Config) (view host connection frame : Option Ptr)
    (scaleFactor : ℚ) (parameterOffset : Nat) (trace : List Call) :
    alternates false
      (events cfg (UIVst3.new view host connection frame scaleFactor parameterOffset) trace)
        = true ∧
    (events cfg (UIVst3.new view host connection frame scaleFactor parameterOffset)
        trace).count Event.idleSent
      ≤ (events cfg (UIVst3.new view host connection frame scaleFactor parameterOffset)
        trace).count Event.readyAccepted := by
  have h := events_alternate cfg trace
    (UIVst3.new view host connection frame scaleFactor parameterOffset) false
    (fun h2 => by simp [UIVst3.new] at h2)
  exact ⟨h, by simpa using alternates_count _ false h⟩

/-- The events of a sample trace: an early tick is silent, the second `ready` in a row
is refused, one `idle` follows the accepted `ready`, and a `disconnect` drops a pending
`ready` without an `idle`. -/
theorem events_sample :
    events ⟨true, true⟩ fresh
      [⟨okHost, noHeap, .onTimer⟩, ⟨okHost, noHeap, .connect (some 7)⟩,
       ⟨okHost, noHeap, .notify readyMsg⟩, ⟨okHost, noHeap, .notify readyMsg⟩,
       ⟨okHost, noHeap, .onTimer⟩, ⟨okHost, noHeap, .onTimer⟩,
       ⟨okHost, noHeap, .notify readyMsg⟩, ⟨okHost, noHeap, .disconnect⟩,
       ⟨okHost, noHeap, .notify readyMsg⟩]
      = [.readyAccepted, .idleSent, .readyAccepted, .readyAccepted] := by
  decide

end UIBridge

namespace UIBridge

/-! ## Dispatch of `notify` -/

/-- Inside the 64-bit signed range the wrap changes nothing. -/
theorem wrapInt64_of_range (x : Int) (h1 : -(2 ^ 63) ≤ x) (h2 : x < 2 ^ 63) :
    wrapInt64 x = x := by
  unfold wrapInt64
  omega

/-- Rounding of one half, as met when `value + 0.5` is truncated. -/
theorem floor_half : ⌊(2 : ℚ)⁻¹⌋ = 0 := by
  rw [Int.floor_eq_iff]
  constructor <;> norm_num

/-- Claim C5. Ready handling: for a `ready` message (a host message with that id and an
attribute list, empty or not), `notify` returns `V3_OK` and sets the ready flag,
changing nothing else, when the flag was clear; when the flag is already set it returns
`V3_INTERNAL_ERR` and leaves the whole controller state unchanged. -/
theorem notify_ready (cfg : Config) (heap : Alloc) (s : UIVst3) (m : Message)
    (attrs : AttrList) (hid : m.msgid = some "ready") (hat : m.attrs = some attrs) :
    (s.fReadyForPluginData = false →
      s.notify cfg heap m = (V3Result.V3_OK, { s with fReadyForPluginData := true })) ∧
    (s.fReadyForPluginData = true →
      s.notify cfg heap m = (V3Result.V3_INTERNAL_ERR, s)) := by
  constructor <;> intro hr <;> simp [UIVst3.notify, hid, hat, hr]

/-- Witness of C5: a `ready` message on a fresh controller, then on one whose flag is set. -/
theorem notify_ready_witness :
    (fresh.notify ⟨true, true⟩ noHeap readyMsg
        = (V3Result.V3_OK, { fresh with fReadyForPluginData := true })) ∧
    (readyState.notify ⟨true, true⟩ noHeap readyMsg
        = (V3Result.V3_INTERNAL_ERR, readyState)) :=
  ⟨(notify_ready ⟨true, true⟩ noHeap fresh readyMsg [] rfl rfl).1 rfl,
   (notify_ready ⟨true, true⟩ noHeap readyState readyMsg [] rfl rfl).2 rfl⟩

/-- Claim C6, as amended. Parameter forwarding: for a `parameter-set` message whose
`rindex` and `value` attributes are readable, with `offset ≤ rindex`,
`rindex - offset < 2^32` and, in builds with program support, `rindex ≠ 0`, `notify`
returns `V3_OK` and calls `parameterChanged` exactly once, with index `rindex - offset`
and the value as read, changing nothing else. -/
theorem notify_parameter_set_forwards (cfg : Config) (heap : Alloc) (s : UIVst3)
    (m : Message) (attrs : AttrList)
    (hid : m.msgid = some "parameter-set") (hat : m.attrs = some attrs)
    (hri : (attrs.get_int "rindex").1 = V3Result.V3_OK)
    (hva : (attrs.get_float "value").1 = V3Result.V3_OK)
    (hoff : (s.fUI.parameterOffset : Int) ≤ (attrs.get_int "rindex").2)
    (hrange : (attrs.get_int "rindex").2 - (s.fUI.parameterOffset : Int) < 2 ^ 32)
    (hprog : cfg.wantPrograms = true → (attrs.get_int "rindex").2 ≠ 0) :
    (s.notify cfg heap m).1 = V3Result.V3_OK ∧
    (s.notify cfg heap m).2.fUI.calls = s.fUI.calls ++
      [UICall.parameterChanged
        ((attrs.get_int "rindex").2 - (s.fUI.parameterOffset : Int)).toNat
        (attrs.get_float "value").2] ∧
    (s.notify cfg heap m).2 = { s with fUI := (s.notify cfg heap m).2.fUI } ∧
    (s.notify cfg heap m).2.fUI.parameterOffset = s.fUI.parameterOffset := by
  have hp : ¬ (cfg.wantPrograms = true ∧ (attrs.get_int "rindex").2 = 0) :=
    fun h => hprog h.1 h.2
  have hnn : (attrs.get_int "rindex").2 - (s.fUI.parameterOffset : Int) ≥ 0 := by omega
  have hwrap : wrapInt64 ((attrs.get_int "rindex").2 - (s.fUI.parameterOffset : Int))
      = (attrs.get_int "rindex").2 - (s.fUI.parameterOffset : Int) :=
    wrapInt64_of_range _ (by omega) (by omega)
  have hcast : toUInt32 ((attrs.get_int "rindex").2 - (s.fUI.parameterOffset : Int))
      = ((attrs.get_int "rindex").2 - (s.fUI.parameterOffset : Int)).toNat := by
    unfold toUInt32
    rw [Int.emod_eq_of_lt hnn hrange]
  simp [UIVst3.notify, hid, hat, UIVst3.notifyParameterSet, hri, hva, hp, hwrap, hnn, hcast,
    UIVst3.callUI]

/-- Witness of C6: `rindex = 5` against offset 1 in a build with program support:
`parameterChanged(4, 3/4)`. -/
theorem notify_parameter_set_forwards_witness :
    (freshOffsetOne.notify ⟨true, false⟩ noHeap (parameterSetMsg 5 (3 / 4))).1
      = V3Result.V3_OK ∧
    (freshOffsetOne.notify ⟨true, false⟩ noHeap (parameterSetMsg 5 (3 / 4))).2.fUI.calls
      = [UICall.parameterChanged 4 (3 / 4)] ∧
    (freshOffsetOne.notify ⟨true, false⟩ noHeap (parameterSetMsg 5 (3 / 4))).2
      = { freshOffsetOne with
          fUI := (freshOffsetOne.notify ⟨true, false⟩ noHeap
            (parameterSetMsg 5 (3 / 4))).2.fUI } ∧
    (freshOffsetOne.notify ⟨true, false⟩ noHeap
        (parameterSetMsg 5 (3 / 4))).2.fUI.parameterOffset = 1 :=
  notify_parameter_set_forwards ⟨true, false⟩ noHeap freshOffsetOne
    (parameterSetMsg 5 (3 / 4)) (parameterSetAttrs 5 (3 / 4)) rfl rfl rfl rfl
    (by decide) (by decide) (by decide)

/-- Counterexample to C6 as stated. Both messages have readable `rindex` and `value`
attributes and `rindex ≥ offset` (offset 0). Without program support, `rindex = 2^32`
reaches `parameterChanged` with index 0, not `rindex - offset`. With program support,
`rindex = 0` is the program selector: `programLoaded(3)` is called and
`parameterChanged` is not. -/
theorem notify_parameter_set_forwards_counterexample :
    ((parameterSetAttrs 4294967296 (1 / 2)).get_int "rindex" = (V3Result.V3_OK, 4294967296) ∧
      (parameterSetAttrs 4294967296 (1 / 2)).get_float "value" = (V3Result.V3_OK, 1 / 2) ∧
      (fresh.fUI.parameterOffset : Int) ≤ 4294967296 ∧
      (fresh.notify ⟨false, false⟩ noHeap (parameterSetMsg 4294967296 (1 / 2))).2.fUI.calls
        = [UICall.parameterChanged 0 (1 / 2)] ∧
      (fresh.notify ⟨false, false⟩ noHeap (parameterSetMsg 4294967296 (1 / 2))).2.fUI.calls
        ≠ fresh.fUI.calls ++
          [UICall.parameterChanged
            ((4294967296 : Int) - (fresh.fUI.parameterOffset : Int)).toNat (1 / 2)]) ∧
    ((parameterSetAttrs 0 3).get_int "rindex" = (V3Result.V3_OK, 0) ∧
      (parameterSetAttrs 0 3).get_float "value" = (V3Result.V3_OK, 3) ∧
      (fresh.fUI.parameterOffset : Int) ≤ 0 ∧
      (fresh.notify ⟨true, false⟩ noHeap (parameterSetMsg 0 3)).2.fUI.calls
        = [UICall.programLoaded 3] ∧
      (fresh.notify ⟨true, false⟩ noHeap (parameterSetMsg 0 3)).2.fUI.calls
        ≠ fresh.fUI.calls ++
          [UICall.parameterChanged ((0 : Int) - (fresh.fUI.parameterOffset : Int)).toNat 3]) := by
  simp [UIVst3.notify, parameterSetMsg, parameterSetAttrs, UIVst3.notifyParameterSet,
    AttrList.get_int, AttrList.get_float, List.lookup, fresh, UIVst3.new, UIVst3.callUI,
    toUInt32, wrapInt64, floor_half]

/-- Claim C7, as amended. Parameter index rejection: for a `parameter-set` message whose
`rindex` attribute is readable with `rindex < offset`, `rindex - offset ≥ -2^63` (the
64-bit subtraction does not overflow) and, in builds with program support,
`rindex ≠ 0`, `notify` does not return `V3_OK` and leaves the controller unchanged (no
UI callback): the result is `V3_INTERNAL_ERR` when the `value` attribute is readable and
the code of the failed read when it is not. In builds with program support a message
with `rindex = 0` and a readable `value` selects the program instead: for `value ≥ 0`
`notify` returns `V3_OK` and calls `programLoaded` exactly once (with `value` itself
when it is an integer below `2^32`), for `value < 0` it returns `V3_INTERNAL_ERR` and
calls nothing. -/
theorem notify_parameter_set_rejects (cfg : Config) (heap : Alloc) (s : UIVst3)
    (m : Message) (attrs : AttrList)
    (hid : m.msgid = some "parameter-set") (hat : m.attrs = some attrs)
    (hri : (attrs.get_int "rindex").1 = V3Result.V3_OK) :
    ((attrs.get_int "rindex").2 < (s.fUI.parameterOffset : Int) →
      -(2 ^ 63) ≤ (attrs.get_int "rindex").2 - (s.fUI.parameterOffset : Int) →
      (cfg.wantPrograms = true → (attrs.get_int "rindex").2 ≠ 0) →
      (s.notify cfg heap m).1 ≠ V3Result.V3_OK ∧
      (s.notify cfg heap m).2 = s ∧
      ((attrs.get_float "value").1 = V3Result.V3_OK →
        (s.notify cfg heap m).1 = V3Result.V3_INTERNAL_ERR) ∧
      ((attrs.get_float "value").1 ≠ V3Result.V3_OK →
        (s.notify cfg heap m).1 = (attrs.get_float "value").1)) ∧
    (cfg.wantPrograms = true → (attrs.get_int "rindex").2 = 0 →
      (attrs.get_float "value").1 = V3Result.V3_OK →
      (0 ≤ (attrs.get_float "value").2 →
        (s.notify cfg heap m).1 = V3Result.V3_OK ∧
        ∃ n, (s.notify cfg heap m).2 = s.callUI (.programLoaded n)) ∧
      (∀ k : Nat, k < 2 ^ 32 → (attrs.get_float "value").2 = (k : ℚ) →
        s.notify cfg heap m = (V3Result.V3_OK, s.callUI (.programLoaded k))) ∧
      ((attrs.get_float "value").2 < 0 →
        s.notify cfg heap m = (V3Result.V3_INTERNAL_ERR, s))) := by
  constructor
  · intro hoff hmin hprog
    have hp : ¬ (cfg.wantPrograms = true ∧ (attrs.get_int "rindex").2 = 0) :=
      fun h => hprog h.1 h.2
    have hwrap : wrapInt64 ((attrs.get_int "rindex").2 - (s.fUI.parameterOffset : Int))
        = (attrs.get_int "rindex").2 - (s.fUI.parameterOffset : Int) :=
      wrapInt64_of_range _ hmin (by omega)
    have hneg : ¬ ((attrs.get_int "rindex").2 - (s.fUI.parameterOffset : Int) ≥ 0) := by
      omega
    by_cases hva : (attrs.get_float "value").1 = V3Result.V3_OK
    · simp [UIVst3.notify, hid, hat, UIVst3.notifyParameterSet, hri, hva, hp, hwrap, hneg]
    · simp [UIVst3.notify, hid, hat, UIVst3.notifyParameterSet, hri, hva]
  · intro hprog hzero hva
    refine ⟨?_, ?_, ?_⟩
    · intro hpos
      have hnn : ¬ ((attrs.get_float "value").2 < 0) := not_lt.mpr hpos
      have e : s.notify cfg heap m
          = (V3Result.V3_OK,
              s.callUI (.programLoaded (toUInt32 ⌊(attrs.get_float "value").2 + 1 / 2⌋))) := by
        simp [UIVst3.notify, hid, hat, UIVst3.notifyParameterSet, hri, hva, hprog, hzero, hnn]
      rw [e]
      exact ⟨rfl, _, rfl⟩
    · intro k hk hval
      have hcast : toUInt32 (k : Int) = k := by
        unfold toUInt32
        rw [Int.emod_eq_of_lt (by omega) (by omega)]
        simp
      simp only [UIVst3.notify, hid, hat, UIVst3.notifyParameterSet, hri, hva, hprog, hzero,
        hval]
      simp [floor_half, hcast]
    · intro hneg
      simp only [UIVst3.notify, hid, hat, UIVst3.notifyParameterSet, hri, hva, hprog, hzero]
      simp [hneg]

/-- Witness of C7: `rindex = 0` against offset 1 in a build without program support,
`rindex = -2` in a build with it, an unreadable `value`, and the program selector with
values 3 and -1. -/
theorem notify_parameter_set_rejects_witness :
    ((freshOffsetOne.notify ⟨false, false⟩ noHeap (parameterSetMsg 0 3)).1
        = V3Result.V3_INTERNAL_ERR ∧
      (freshOffsetOne.notify ⟨false, false⟩ noHeap (parameterSetMsg 0 3)).2 = freshOffsetOne) ∧
    ((freshOffsetOne.notify ⟨true, false⟩ noHeap (parameterSetMsg (-2) 3)).1
        = V3Result.V3_INTERNAL_ERR ∧
      (freshOffsetOne.notify ⟨true, false⟩ noHeap (parameterSetMsg (-2) 3)).2
        = freshOffsetOne) ∧
    ((freshOffsetOne.notify ⟨false, false⟩ noHeap indexOnlyMsg).1
        = (AttrList.get_float [("rindex", .int 0)] "value").1) ∧
    (freshOffsetOne.notify ⟨true, false⟩ noHeap (parameterSetMsg 0 ((3 : Nat) : ℚ))
        = (V3Result.V3_OK, freshOffsetOne.callUI (.programLoaded 3))) ∧
    (freshOffsetOne.notify ⟨true, false⟩ noHeap (parameterSetMsg 0 (-1))
        = (V3Result.V3_INTERNAL_ERR, freshOffsetOne)) :=
  ⟨⟨((notify_parameter_set_rejects ⟨false, false⟩ noHeap freshOffsetOne (parameterSetMsg 0 3)
        (parameterSetAttrs 0 3) rfl rfl rfl).1 (by decide) (by decide) (by decide)).2.2.1 rfl,
    ((notify_parameter_set_rejects ⟨false, false⟩ noHeap freshOffsetOne (parameterSetMsg 0 3)
        (parameterSetAttrs 0 3) rfl rfl rfl).1 (by decide) (by decide) (by decide)).2.1⟩,
   ⟨((notify_parameter_set_rejects ⟨true, false⟩ noHeap freshOffsetOne
        (parameterSetMsg (-2) 3) (parameterSetAttrs (-2) 3) rfl rfl rfl).1
        (by decide) (by decide) (by decide)).2.2.1 rfl,
    ((notify_parameter_set_rejects ⟨true, false⟩ noHeap freshOffsetOne
        (parameterSetMsg (-2) 3) (parameterSetAttrs (-2) 3) rfl rfl rfl).1
        (by decide) (by decide) (by decide)).2.1⟩,
   ((notify_parameter_set_rejects ⟨false, false⟩ noHeap freshOffsetOne indexOnlyMsg
        [("rindex", .int 0)] rfl rfl rfl).1 (by decide) (by decide) (by decide)).2.2.2
        (by decide),
   ((notify_parameter_set_rejects ⟨true, false⟩ noHeap freshOffsetOne
        (parameterSetMsg 0 ((3 : Nat) : ℚ)) (parameterSetAttrs 0 ((3 : Nat) : ℚ))
        rfl rfl rfl).2 rfl rfl rfl).2.1 3 (by decide) rfl,
   ((notify_parameter_set_rejects ⟨true, false⟩ noHeap freshOffsetOne
        (parameterSetMsg 0 (-1)) (parameterSetAttrs 0 (-1)) rfl rfl rfl).2 rfl rfl rfl).2.2
        (by decide)⟩

/-- Counterexample to C7 as stated. In a build with program support and offset 1, the
message with readable `rindex = 0 < offset` and value 3 is not rejected: `notify` returns
`V3_OK` and calls `programLoaded(3)`. And in a build without program support, with
offset 1, the message with `rindex = -2^63 < offset` and value 1 is not rejected
either: the 64-bit subtraction wraps to `2^63 - 1`, `notify` returns `V3_OK` and calls
`parameterChanged(4294967295, 1)`. -/
theorem notify_parameter_set_rejects_counterexample :
    ((parameterSetAttrs 0 3).get_int "rindex" = (V3Result.V3_OK, 0) ∧
      (0 : Int) < (freshOffsetOne.fUI.parameterOffset : Int) ∧
      (freshOffsetOne.notify ⟨true, false⟩ noHeap (parameterSetMsg 0 3)).1 = V3Result.V3_OK ∧
      (freshOffsetOne.notify ⟨true, false⟩ noHeap (parameterSetMsg 0 3)).2.fUI.calls
        = [UICall.programLoaded 3]) ∧
    ((parameterSetAttrs (-9223372036854775808) 1).get_int "rindex"
        = (V3Result.V3_OK, -9223372036854775808) ∧
      (-9223372036854775808 : Int) < (freshOffsetOne.fUI.parameterOffset : Int) ∧
      (freshOffsetOne.notify ⟨false, false⟩ noHeap
        (parameterSetMsg (-9223372036854775808) 1)).1 = V3Result.V3_OK ∧
      (freshOffsetOne.notify ⟨false, false⟩ noHeap
        (parameterSetMsg (-9223372036854775808) 1)).2.fUI.calls
        = [UICall.parameterChanged 4294967295 1]) := by
  simp [UIVst3.notify, parameterSetMsg, parameterSetAttrs, UIVst3.notifyParameterSet,
    AttrList.get_int, AttrList.get_float, List.lookup, freshOffsetOne, UIVst3.new,
    UIVst3.callUI, toUInt32, wrapInt64, floor_half]

end UIBridge

namespace UIBridge

/-! ## The connection-point adapter -/

/-- Claim C8. Double connect: on an existing adapter, `connect(p2)` while an endpoint
`p1` is registered returns `V3_INVALID_ARG` and changes nothing (the endpoint stays
`p1`, the UI controller is not called); `connect(p)` with no endpoint registered returns
`V3_OK` and registers `p`. -/
theorem connection_point_connect (h : HostReply) (w : Bridge)
    (point : dpf_ui_connection_point) (hpoint : w.point = some point) (p2 : Option Ptr) :
    (∀ p1 : Ptr, point.other = some p1 →
      dpf_ui_connection_point.connect h w p2 = (V3Result.V3_INVALID_ARG, w)) ∧
    (point.other = none →
      (dpf_ui_connection_point.connect h w p2).1 = V3Result.V3_OK ∧
      (dpf_ui_connection_point.connect h w p2).2.point = some { point with other := p2 }) := by
  constructor
  · intro p1 ho
    simp [dpf_ui_connection_point.connect, hpoint, ho]
  · intro ho
    cases hu : w.uivst3 <;> simp [dpf_ui_connection_point.connect, hpoint, ho, hu]

/-- Witness of C8: endpoint 8 offered to the adapter that holds endpoint 7, and
endpoint 7 offered to the adapter that holds none. -/
theorem connection_point_connect_witness :
    (dpf_ui_connection_point.connect okHost connectedBridge (some 8)
        = (V3Result.V3_INVALID_ARG, connectedBridge)) ∧
    ((dpf_ui_connection_point.connect okHost idleBridge (some 7)).1 = V3Result.V3_OK ∧
      (dpf_ui_connection_point.connect okHost idleBridge (some 7)).2.point
        = some { dpf_ui_connection_point.new with other := some 7 }) :=
  ⟨(connection_point_connect okHost connectedBridge ⟨1, some 7⟩ rfl (some 8)).1 7 rfl,
   (connection_point_connect okHost idleBridge dpf_ui_connection_point.new rfl (some 7)).2 rfl⟩

/-- Claim C9. Disconnect without connect: on an existing adapter, `disconnect` while no
endpoint is registered returns `V3_INVALID_ARG` and changes nothing (the UI controller
is not called); `disconnect` while an endpoint is registered, in particular right after
a successful `connect` of an endpoint, returns `V3_OK` and leaves no endpoint registered,
and a following `connect` returns `V3_OK` and registers its endpoint. -/
theorem connection_point_disconnect (h1 h2 h3 : HostReply) (w : Bridge)
    (point : dpf_ui_connection_point) (hpoint : w.point = some point) (q : Option Ptr) :
    (point.other = none →
      dpf_ui_connection_point.disconnect h1 w q = (V3Result.V3_INVALID_ARG, w)) ∧
    (∀ p : Ptr, point.other = some p →
      (dpf_ui_connection_point.disconnect h1 w q).1 = V3Result.V3_OK ∧
      (dpf_ui_connection_point.disconnect h1 w q).2.point = some { point with other := none }) ∧
    (∀ p p2 : Ptr, point.other = none →
      (dpf_ui_connection_point.connect h1 w (some p)).1 = V3Result.V3_OK ∧
      (dpf_ui_connection_point.disconnect h2
        (dpf_ui_connection_point.connect h1 w (some p)).2 q).1 = V3Result.V3_OK ∧
      (dpf_ui_connection_point.disconnect h2
        (dpf_ui_connection_point.connect h1 w (some p)).2 q).2.point
          = some { point with other := none } ∧
      (dpf_ui_connection_point.connect h3
        (dpf_ui_connection_point.disconnect h2
          (dpf_ui_connection_point.connect h1 w (some p)).2 q).2 (some p2)).1
          = V3Result.V3_OK ∧
      (dpf_ui_connection_point.connect h3
        (dpf_ui_connection_point.disconnect h2
          (dpf_ui_connection_point.connect h1 w (some p)).2 q).2 (some p2)).2.point
          = some { point with other := some p2 }) := by
  refine ⟨?_, ?_, ?_⟩
  · intro ho
    simp [dpf_ui_connection_point.disconnect, hpoint, ho]
  · intro p ho
    cases hu : w.uivst3 <;> simp [dpf_ui_connection_point.disconnect, hpoint, ho, hu]
  · intro p p2 ho
    cases hu : w.uivst3 <;>
      simp [dpf_ui_connection_point.disconnect, dpf_ui_connection_point.connect, hpoint, ho, hu]

/-- Witness of C9: `disconnect` on the adapter that holds no endpoint; then `connect`
of endpoint 7, `disconnect`, and `connect` of endpoint 8 on it. -/
theorem connection_point_disconnect_witness :
    (dpf_ui_connection_point.disconnect okHost idleBridge none
        = (V3Result.V3_INVALID_ARG, idleBridge)) ∧
    ((dpf_ui_connection_point.connect okHost idleBridge (some 7)).1 = V3Result.V3_OK ∧
    (dpf_ui_connection_point.disconnect okHost
      (dpf_ui_connection_point.connect okHost idleBridge (some 7)).2 none).1
        = V3Result.V3_OK ∧
    (dpf_ui_connection_point.disconnect okHost
      (dpf_ui_connection_point.connect okHost idleBridge (some 7)).2 none).2.point
        = some { dpf_ui_connection_point.new with other := none } ∧
    (dpf_ui_connection_point.connect okHost
      (dpf_ui_connection_point.disconnect okHost
        (dpf_ui_connection_point.connect okHost idleBridge (some 7)).2 none).2 (some 8)).1
        = V3Result.V3_OK ∧
    (dpf_ui_connection_point.connect okHost
      (dpf_ui_connection_point.disconnect okHost
        (dpf_ui_connection_point.connect okHost idleBridge (some 7)).2 none).2 (some 8)).2.point
        = some { dpf_ui_connection_point.new with other := some 8 }) :=
  ⟨(connection_point_disconnect okHost okHost okHost idleBridge dpf_ui_connection_point.new
      rfl none).1 rfl,
   (connection_point_disconnect okHost okHost okHost idleBridge dpf_ui_connection_point.new
      rfl none).2.2 7 8 rfl⟩

end UIBridge

namespace UIBridge

/-! ## The in-place narrowing of the `state-set` branch -/

/-- Bytes of `n` units: two per unit. -/
theorem unitsToBytes_length (us : List Nat) : (unitsToBytes us).length = 2 * us.length := by
  induction us with
  | nil => rfl
  | cons u us ih => simp [unitsToBytes, ih]; omega

/-- The low byte of unit `j` sits at byte `2 * j`, the high byte at `2 * j + 1`. -/
theorem unitsToBytes_getD (us : List Nat) (j : Nat) :
    (unitsToBytes us).getD (2 * j) 0 = us.getD j 0 % 256 ∧
    (unitsToBytes us).getD (2 * j + 1) 0 = us.getD j 0 / 256 % 256 := by
  induction us generalizing j with
  | nil => simp [unitsToBytes]
  | cons u us ih =>
    cases j with
    | zero => simp [unitsToBytes]
    | succ j =>
      have e1 : 2 * (j + 1) = (2 * j + 1) + 1 := by omega
      rw [e1]
      simp only [unitsToBytes, List.getD_cons_succ]
      exact ih j

/-- The narrowing loop over `n` units leaves byte `j < n` equal to the low 8 bits of
the unit `j` of the buffer as it was on entry, and every byte from `n` on untouched: no
unit is overwritten before it is read. -/
theorem narrowLoop_spec (buf : Nat → Nat) (n : Nat) :
    (∀ j, j < n → narrowLoop buf n j = read16 buf j % 256) ∧
    (∀ j, n ≤ j → narrowLoop buf n j = buf j) := by
  induction n with
  | zero => exact ⟨fun j hj => absurd hj (Nat.not_lt_zero j), fun j _ => rfl⟩
  | succ n ih =>
    obtain ⟨ih1, ih2⟩ := ih
    have hread : read16 (narrowLoop buf n) n = read16 buf n := by
      unfold read16
      rw [ih2 (2 * n) (by omega), ih2 (2 * n + 1) (by omega)]
    constructor
    · intro j hj
      rcases Nat.lt_succ_iff_lt_or_eq.mp hj with hlt | heq
      · simp only [narrowLoop]
        rw [Function.update_noteq (Nat.ne_of_lt hlt)]
        exact ih1 j hlt
      · subst heq
        simp only [narrowLoop, Function.update_same, hread]
    · intro j hj
      simp only [narrowLoop]
      rw [Function.update_noteq (by omega)]
      exact ih2 j (by omega)

/-- Reading a C string: when the first `s.length` bytes of the buffer are the non-zero
bytes `s` and the next byte is NUL, the string read is `s`. -/
theorem cstring_eq (buf : Nat → Nat) (s : List Nat) (size : Nat)
    (hsize : s.length < size) (hs : ∀ c ∈ s, c ≠ 0)
    (hbuf : ∀ j, j < s.length → buf j = s.getD j 0) (hnul : buf s.length = 0) :
    cstring buf size = s := by
  obtain ⟨k, rfl⟩ : ∃ k, size = s.length + (k + 1) := ⟨size - s.length - 1, by omega⟩
  have h1 : (List.range s.length).map buf = s := by
    apply List.ext_getElem
    · simp
    · intro i hi1 hi2
      simp only [List.getElem_map, List.getElem_range]
      rw [hbuf i hi2, List.getD_eq_getElem _ _ hi2]
  unfold cstring
  rw [List.range_add, List.map_append, h1, List.range_succ_eq_map]
  simp only [List.map_cons, List.map_map, Nat.add_zero, hnul]
  rw [List.takeWhile_append_of_pos]
  · simp
  · intro c hc
    simpa using hs c hc

/-- Decoding of one string attribute: the widened 7-bit string is copied into the
allocation without its terminator, narrowed in place and terminated; the C string that
results is the original one, whatever the allocation held before. -/
theorem narrowed_cstring (buf0 : Nat → Nat) (s : List Nat)
    (hs : ∀ c ∈ s, 0 < c ∧ c < 128) :
    cstring
      (Function.update
        (narrowLoop
          (memcpy buf0 (unitsToBytes (s ++ [0]))
            (min (unitsToBytes (s ++ [0])).length (2 * s.length)))
          s.length)
        s.length 0)
      (2 * (s.length + 1)) = s := by
  apply cstring_eq
  · omega
  · intro c hc
    exact Nat.pos_iff_ne_zero.mp (hs c hc).1
  · intro j hj
    rw [Function.update_noteq (Nat.ne_of_lt hj), (narrowLoop_spec _ _).1 j hj]
    have hlen : min (unitsToBytes (s ++ [0])).length (2 * s.length) = 2 * s.length := by
      rw [unitsToBytes_length]
      simp
    have hb : memcpy buf0 (unitsToBytes (s ++ [0]))
        (min (unitsToBytes (s ++ [0])).length (2 * s.length)) (2 * j) = s.getD j 0 % 256 := by
      unfold memcpy
      rw [hlen, if_pos (by omega), (unitsToBytes_getD _ j).1, List.getD_append _ _ _ _ hj]
    have hlt : s.getD j 0 < 128 := by
      rw [List.getD_eq_getElem _ _ hj]
      exact (hs _ (List.getElem_mem hj)).2
    unfold read16
    rw [hb]
    omega
  · exact Function.update_same _ _ _

/-- Claim C10. State string round trip: for every key and value made only of 7-bit
characters, none of them NUL, `setState` on a connected controller whose host hands out
a message delivers a `state-set` message carrying `key:length` and `value:length` (the
byte lengths) and `key` and `value` (the characters widened to 16-bit units); and the
`state-set` branch of `notify`, in a build with state support and with both allocations
successful (whatever the fresh buffers hold), decodes that message into exactly one
`stateChanged` call with the original key and the original value as NUL-terminated
strings, returns `V3_OK` and changes nothing else. -/
theorem state_set_round_trip (cfg : Config) (h : HostReply) (heap : Alloc)
    (s r : UIVst3) (p hc : Ptr) (key value : List Nat) (kb vb : Nat → Nat)
    (hconn : s.fConnection = some p) (hhost : s.fHostContext = some hc)
    (hres : h.res = V3Result.V3_TRUE) (hmsg : h.msg = true) (hattrs : h.attrs = true)
    (hcfg : cfg.wantState = true)
    (hk : heap.key16 = some kb) (hv : heap.value16 = some vb)
    (hkey : ∀ c ∈ key, 0 < c ∧ c < 128) (hvalue : ∀ c ∈ value, 0 < c ∧ c < 128) :
    (s.setState h key value).sent = s.sent ++
      [(p, { msgid := some "state-set",
             attrs := some [("__dpf_msg_target__", .int 1),
                            ("key:length", .int key.length),
                            ("value:length", .int value.length),
                            ("key", .string key), ("value", .string value)] })] ∧
    r.notify cfg heap
      { msgid := some "state-set",
        attrs := some [("__dpf_msg_target__", .int 1),
                       ("key:length", .int key.length),
                       ("value:length", .int value.length),
                       ("key", .string key), ("value", .string value)] }
      = (V3Result.V3_OK, r.callUI (.stateChanged key value)) := by
  constructor
  · simp [UIVst3.setState, hconn, UIVst3.sendTo, UIVst3.createMessage, hhost, hres, hmsg,
      hattrs, AttrList.set, strlen, ScopedUTF16String]
  · have e1 := narrowed_cstring kb key hkey
    have e2 := narrowed_cstring vb value hvalue
    simp [UIVst3.notify, hcfg, UIVst3.notifyStateSet, AttrList.get_int, AttrList.get_string,
      List.lookup, hk, hv, e1, e2]

/-- Witness of C10: key `key` and value `hi` sent by a connected controller and decoded
by a fresh one into buffers filled with `0xFF`. -/
theorem state_set_round_trip_witness :
    (connectedState.setState okHost [107, 101, 121] [104, 105]).sent = connectedState.sent ++
      [(7, { msgid := some "state-set",
             attrs := some [("__dpf_msg_target__", .int 1),
                            ("key:length", .int ([107, 101, 121] : List Nat).length),
                            ("value:length", .int ([104, 105] : List Nat).length),
                            ("key", .string [107, 101, 121]), ("value", .string [104, 105])] })] ∧
    fresh.notify ⟨false, true⟩ dirtyHeap
      { msgid := some "state-set",
        attrs := some [("__dpf_msg_target__", .int 1),
                       ("key:length", .int ([107, 101, 121] : List Nat).length),
                       ("value:length", .int ([104, 105] : List Nat).length),
                       ("key", .string [107, 101, 121]), ("value", .string [104, 105])] }
      = (V3Result.V3_OK, fresh.callUI (.stateChanged [107, 101, 121] [104, 105])) :=
  state_set_round_trip ⟨false, true⟩ okHost dirtyHeap connectedState fresh 7 2
    [107, 101, 121] [104, 105] (fun _ => 255) (fun _ => 255) rfl rfl rfl rfl rfl rfl rfl rfl
    (by decide) (by decide)

end UIBridge

namespace UIBridge

/-! ## The `sample-rate` branch and unknown identifiers -/

/-- Claim C11. Sample-rate message: for a `sample-rate` message whose `value` attribute
is readable, `notify` returns `V3_OK` and calls `setSampleRate` on the UI with exactly
that value (and nothing else changes) when the value is positive; when the value is
zero or negative it returns `V3_INVALID_ARG` and the whole controller state, the UI
included, is unchanged. -/
theorem notify_sample_rate (cfg : Config) (heap : Alloc) (s : UIVst3) (m : Message)
    (attrs : AttrList) (hid : m.msgid = some "sample-rate") (hat : m.attrs = some attrs)
    (hva : (attrs.get_float "value").1 = V3Result.V3_OK) :
    ((attrs.get_float "value").2 > 0 →
      s.notify cfg heap m
        = (V3Result.V3_OK, s.callUI (.setSampleRate (attrs.get_float "value").2 true))) ∧
    ((attrs.get_float "value").2 ≤ 0 →
      s.notify cfg heap m = (V3Result.V3_INVALID_ARG, s)) := by
  constructor
  · intro hpos
    simp [UIVst3.notify, hid, hat, UIVst3.notifySampleRate, hva, hpos]
  · intro hneg
    simp [UIVst3.notify, hid, hat, UIVst3.notifySampleRate, hva, not_lt.mpr hneg]

/-- Witness of C11: 44100 is propagated, 0 and -48000 are refused. -/
theorem notify_sample_rate_witness :
    (fresh.notify ⟨true, true⟩ noHeap (sampleRateMsg 44100)
        = (V3Result.V3_OK, fresh.callUI (.setSampleRate 44100 true))) ∧
    (fresh.notify ⟨true, true⟩ noHeap (sampleRateMsg 0) = (V3Result.V3_INVALID_ARG, fresh)) ∧
    (fresh.notify ⟨true, false⟩ noHeap (sampleRateMsg (-48000))
        = (V3Result.V3_INVALID_ARG, fresh)) :=
  ⟨(notify_sample_rate ⟨true, true⟩ noHeap fresh (sampleRateMsg 44100) (sampleRateAttrs 44100)
      rfl rfl rfl).1 (by decide),
   (notify_sample_rate ⟨true, true⟩ noHeap fresh (sampleRateMsg 0) (sampleRateAttrs 0)
      rfl rfl rfl).2 (by decide),
   (notify_sample_rate ⟨true, false⟩ noHeap fresh (sampleRateMsg (-48000))
      (sampleRateAttrs (-48000)) rfl rfl rfl).2 (by decide)⟩

/-- Claim C12. Unknown message: for every message whose identifier is none of `ready`,
`parameter-set`, `sample-rate` and, in builds with state support, `state-set`, `notify`
returns `V3_NOT_IMPLEMENTED` and leaves the whole controller state unchanged (ready
flag, endpoint, scale factor, and no call on the UI). -/
theorem notify_unknown (cfg : Config) (heap : Alloc) (s : UIVst3) (m : Message)
    (id : String) (attrs : AttrList) (hid : m.msgid = some id) (hat : m.attrs = some attrs)
    (h1 : id ≠ "ready") (h2 : id ≠ "parameter-set") (h3 : id ≠ "sample-rate")
    (h4 : cfg.wantState = true → id ≠ "state-set") :
    s.notify cfg heap m = (V3Result.V3_NOT_IMPLEMENTED, s) ∧
    (s.notify cfg heap m).2.fReadyForPluginData = s.fReadyForPluginData ∧
    (s.notify cfg heap m).2.fConnection = s.fConnection ∧
    (s.notify cfg heap m).2.fScaleFactor = s.fScaleFactor ∧
    (s.notify cfg heap m).2.fUI.calls = s.fUI.calls := by
  have h5 : ¬ (cfg.wantState = true ∧ id = "state-set") := fun h => h4 h.1 h.2
  have e : s.notify cfg heap m = (V3Result.V3_NOT_IMPLEMENTED, s) := by
    simp [UIVst3.notify, hid, hat, h1, h2, h3, h5]
  rw [e]
  exact ⟨rfl, rfl, rfl, rfl, rfl⟩

/-- Witness of C12: an `idle` message in a build with state support, and a `state-set`
message in a build without it, on the controller whose ready flag is set. -/
theorem notify_unknown_witness :
    (readyState.notify ⟨true, true⟩ dirtyHeap (plainMsg "idle")
        = (V3Result.V3_NOT_IMPLEMENTED, readyState)) ∧
    (readyState.notify ⟨true, false⟩ dirtyHeap (plainMsg "state-set")
        = (V3Result.V3_NOT_IMPLEMENTED, readyState)) :=
  ⟨(notify_unknown ⟨true, true⟩ dirtyHeap readyState (plainMsg "idle") "idle" [] rfl rfl
      (by decide) (by decide) (by decide) (by decide)).1,
   (notify_unknown ⟨true, false⟩ dirtyHeap readyState (plainMsg "state-set") "state-set" []
      rfl rfl (by decide) (by decide) (by decide) (by decide)).1⟩

end UIBridge

namespace Splitter

variable {α : Type} [LinearOrderedField α]

/-! ## The per-sample equations of `run` -/

/-- The loop of `run` never writes the filter coefficients. -/
theorem run_coefficients (s : Plugin α) (in1 in2 : Nat → α) (o : Outputs α) (frames : Nat) :
    (run s in1 in2 o frames).1.a0LP = s.a0LP ∧
    (run s in1 in2 o frames).1.b1LP = s.b1LP ∧
    (run s in1 in2 o frames).1.a0HP = s.a0HP ∧
    (run s in1 in2 o frames).1.b1HP = s.b1HP := by
  induction frames with
  | zero => simp [run]
  | succ n ih => simpa [run, runFrame] using ih

/-- A frame of the loop writes the output buffers at its own index only. -/
theorem runFrame_other_index (in1 in2 : Nat → α) (n i k : Nat) (so : Plugin α × Outputs α)
    (h : i ≠ n) : (runFrame in1 in2 n so).2.port k i = so.2.port k i := by
  unfold Outputs.port
  split <;> simp [runFrame, Function.update_noteq h]

/-- Once frame `i` has been processed, later frames leave the samples at `i` alone. -/
theorem run_output_stable (s : Plugin α) (in1 in2 : Nat → α) (o : Outputs α)
    (i k d : Nat) :
    (run s in1 in2 o (i + 1 + d)).2.port k i = (run s in1 in2 o (i + 1)).2.port k i := by
  induction d with
  | zero => rfl
  | succ d ih =>
    have e : i + 1 + (d + 1) = (i + 1 + d) + 1 := by omega
    rw [e]
    show (runFrame in1 in2 (i + 1 + d) (run s in1 in2 o (i + 1 + d))).2.port k i = _
    rw [runFrame_other_index in1 in2 (i + 1 + d) i k _ (by omega)]
    exact ih

/-- Claim C13. Per-sample step of `run`: for every state, input block and frame
`i < frames`, with `x = inputs[0][i]`, `t` and `h` the low-pass and high-pass memories
after frame `i` and `tmp1LP_prev`, `tmp1HP_prev` the memories on entry to frame `i`:
`t = a0LP*x - b1LP*tmp1LP_prev + epsilon`, `outputs[0][i] = (t - epsilon)*lowVol*outVol`,
`h = a0HP*x - b1HP*tmp1HP_prev + epsilon` (from the raw input),
`outputs[4][i] = (x - h - epsilon)*highVol*outVol` and
`outputs[2][i] = (x - (t - epsilon) - (x - h - epsilon))*midVol*outVol`; the right
channel obeys the same equations with `tmp2LP`, `tmp2HP` on outputs 1, 5 and 3; and
`epsilon` is `1e-30`. -/
theorem run_frame_equations (s : Plugin α) (in1 in2 : Nat → α) (o : Outputs α)
    (frames i : Nat) (hi : i < frames) :
    ((run s in1 in2 o (i + 1)).1.tmp1LP
        = s.a0LP * in1 i - s.b1LP * (run s in1 in2 o i).1.tmp1LP + kDC_ADD ∧
      (run s in1 in2 o frames).2.port 0 i
        = ((run s in1 in2 o (i + 1)).1.tmp1LP - kDC_ADD) * s.lowVol * s.outVol ∧
      (run s in1 in2 o (i + 1)).1.tmp1HP
        = s.a0HP * in1 i - s.b1HP * (run s in1 in2 o i).1.tmp1HP + kDC_ADD ∧
      (run s in1 in2 o frames).2.port 4 i
        = (in1 i - (run s in1 in2 o (i + 1)).1.tmp1HP - kDC_ADD) * s.highVol * s.outVol ∧
      (run s in1 in2 o frames).2.port 2 i
        = (in1 i - ((run s in1 in2 o (i + 1)).1.tmp1LP - kDC_ADD)
            - (in1 i - (run s in1 in2 o (i + 1)).1.tmp1HP - kDC_ADD)) * s.midVol * s.outVol) ∧
    ((run s in1 in2 o (i + 1)).1.tmp2LP
        = s.a0LP * in2 i - s.b1LP * (run s in1 in2 o i).1.tmp2LP + kDC_ADD ∧
      (run s in1 in2 o frames).2.port 1 i
        = ((run s in1 in2 o (i + 1)).1.tmp2LP - kDC_ADD) * s.lowVol * s.outVol ∧
      (run s in1 in2 o (i + 1)).1.tmp2HP
        = s.a0HP * in2 i - s.b1HP * (run s in1 in2 o i).1.tmp2HP + kDC_ADD ∧
      (run s in1 in2 o frames).2.port 5 i
        = (in2 i - (run s in1 in2 o (i + 1)).1.tmp2HP - kDC_ADD) * s.highVol * s.outVol ∧
      (run s in1 in2 o frames).2.port 3 i
        = (in2 i - ((run s in1 in2 o (i + 1)).1.tmp2LP - kDC_ADD)
            - (in2 i - (run s in1 in2 o (i + 1)).1.tmp2HP - kDC_ADD)) * s.midVol * s.outVol) ∧
    (kDC_ADD : α) = 1 / 10 ^ 30 := by
  obtain ⟨d, rfl⟩ : ∃ d, frames = i + 1 + d := ⟨frames - (i + 1), by omega⟩
  obtain ⟨g1, g2, g3, g4⟩ := run_gains s in1 in2 o i
  obtain ⟨c1, c2, c3, c4⟩ := run_coefficients s in1 in2 o i
  simp only [run_output_stable]
  simp only [run, runFrame, Outputs.port, Function.update_same, g1, g2, g3, g4, c1, c2, c3, c4]
  refine ⟨⟨?_, ?_, ?_, ?_, ?_⟩, ⟨?_, ?_, ?_, ?_, ?_⟩, ?_⟩ <;> trivial

/-- Witness of C13: frame 1 of a three-frame block on the sample state. -/
theorem run_frame_equations_witness :
    (run unitGainState (fun n => 3 * n + 1) (fun n => 2 - n) silence 2).1.tmp1LP
        = unitGainState.a0LP * (fun n : Nat => (3 * n + 1 : ℚ)) 1
          - unitGainState.b1LP
            * (run unitGainState (fun n => 3 * n + 1) (fun n => 2 - n) silence 1).1.tmp1LP
          + kDC_ADD ∧
    (run unitGainState (fun n => 3 * n + 1) (fun n => 2 - n) silence 3).2.port 0 1
        = ((run unitGainState (fun n => 3 * n + 1) (fun n => 2 - n) silence 2).1.tmp1LP
            - kDC_ADD) * unitGainState.lowVol * unitGainState.outVol :=
  ⟨(run_frame_equations unitGainState (fun n => 3 * n + 1) (fun n => 2 - n) silence 3 1
      (by decide)).1.1,
   (run_frame_equations unitGainState (fun n => 3 * n + 1) (fun n => 2 - n) silence 3 1
      (by decide)).1.2.1⟩

end Splitter

namespace Splitter

variable {α : Type} [LinearOrderedField α]

/-! ## Filter coefficients -/

/-- The constant `kPI` is positive. -/
theorem kPI_pos : (0 : α) < kPI := by
  unfold kPI
  positivity

/-- Coefficients of a one-pole filter whose pole `x` lies strictly between 0 and 1. -/
theorem one_pole_bounds (x : α) (h0 : 0 < x) (h1 : x < 1) :
    0 < 1 - x ∧ 1 - x < 1 ∧ -1 < -x ∧ -x < 0 := by
  refine ⟨?_, ?_, ?_, ?_⟩ <;> linarith

/-- The exponent `-2*pi*c/sr` is negative for a positive cutoff and sample rate. -/
theorem exponent_neg (c sr : α) (hc : 0 < c) (hsr : 0 < sr) : -2 * kPI * c / sr < 0 := by
  have h : 0 < 2 * kPI * c / sr := div_pos (mul_pos (mul_pos (by norm_num) kPI_pos) hc) hsr
  have e : -2 * kPI * c / sr = -(2 * kPI * c / sr) := by ring
  rw [e]
  linarith

/-- Claim C14, as amended. Coefficient derivation, over exact real arithmetic with the
real exponential (`pi` is the constant `kPI` of the source): with sample rate `sr > 0`, after
`setParameterValue(paramLowMidFreq, v)` the low-pass coefficients satisfy
`xLP = exp(-2*pi*c/sr)`, `a0LP = 1 - xLP`, `b1LP = -xLP`, where `c` is the stored
(clamped) low-mid cutoff; after `setParameterValue(paramMidHighFreq, v)` the same holds
for `xHP`, `a0HP`, `b1HP` with the stored mid-high cutoff; hence `a0 = 1 + b1` for both
filters, and for a cutoff `> 0` both satisfy `0 < a0 < 1` and `-1 < b1 < 0`. -/
theorem setParameterValue_coefficients (e : Env ℝ) (s : Plugin ℝ) (v : ℝ)
    (hexp : e.exp = Real.exp) (hsr : 0 < e.sampleRate) :
    ((setParameterValue e s .paramLowMidFreq v).xLP
        = Real.exp (-2 * kPI
            * getParameterValue (setParameterValue e s .paramLowMidFreq v) .paramLowMidFreq
            / e.sampleRate) ∧
      (setParameterValue e s .paramLowMidFreq v).a0LP
        = 1 - (setParameterValue e s .paramLowMidFreq v).xLP ∧
      (setParameterValue e s .paramLowMidFreq v).b1LP
        = -(setParameterValue e s .paramLowMidFreq v).xLP ∧
      (setParameterValue e s .paramLowMidFreq v).a0LP
        = 1 + (setParameterValue e s .paramLowMidFreq v).b1LP ∧
      (0 < getParameterValue (setParameterValue e s .paramLowMidFreq v) .paramLowMidFreq →
        0 < (setParameterValue e s .paramLowMidFreq v).a0LP ∧
        (setParameterValue e s .paramLowMidFreq v).a0LP < 1 ∧
        -1 < (setParameterValue e s .paramLowMidFreq v).b1LP ∧
        (setParameterValue e s .paramLowMidFreq v).b1LP < 0)) ∧
    ((setParameterValue e s .paramMidHighFreq v).xHP
        = Real.exp (-2 * kPI
            * getParameterValue (setParameterValue e s .paramMidHighFreq v) .paramMidHighFreq
            / e.sampleRate) ∧
      (setParameterValue e s .paramMidHighFreq v).a0HP
        = 1 - (setParameterValue e s .paramMidHighFreq v).xHP ∧
      (setParameterValue e s .paramMidHighFreq v).b1HP
        = -(setParameterValue e s .paramMidHighFreq v).xHP ∧
      (setParameterValue e s .paramMidHighFreq v).a0HP
        = 1 + (setParameterValue e s .paramMidHighFreq v).b1HP ∧
      (0 < getParameterValue (setParameterValue e s .paramMidHighFreq v) .paramMidHighFreq →
        0 < (setParameterValue e s .paramMidHighFreq v).a0HP ∧
        (setParameterValue e s .paramMidHighFreq v).a0HP < 1 ∧
        -1 < (setParameterValue e s .paramMidHighFreq v).b1HP ∧
        (setParameterValue e s .paramMidHighFreq v).b1HP < 0)) := by
  have hn : ¬ e.sampleRate ≤ 0 := not_le.mpr hsr
  constructor
  · simp only [setParameterValue, getParameterValue, hn, if_false, hexp]
    refine ⟨trivial, trivial, trivial, by ring, ?_⟩
    intro hc
    exact one_pole_bounds _ (Real.exp_pos _) (Real.exp_lt_one_iff.mpr (exponent_neg _ _ hc hsr))
  · simp only [setParameterValue, getParameterValue, hn, if_false, hexp]
    refine ⟨trivial, trivial, trivial, by ring, ?_⟩
    intro hc
    exact one_pole_bounds _ (Real.exp_pos _) (Real.exp_lt_one_iff.mpr (exponent_neg _ _ hc hsr))

/-- Witness of C14: 300 Hz written to low_mid and 5000 Hz to mid_high at 48 kHz, on the
state the constructor leaves, with the real exponential. -/
theorem setParameterValue_coefficients_witness :
    ((setParameterValue (⟨48000, Real.exp⟩ : Env ℝ)
        (construct (⟨48000, Real.exp⟩ : Env ℝ) blank) .paramLowMidFreq 300).xLP
        = Real.exp (-2 * kPI
            * getParameterValue (setParameterValue (⟨48000, Real.exp⟩ : Env ℝ)
                (construct (⟨48000, Real.exp⟩ : Env ℝ) blank) .paramLowMidFreq 300)
                .paramLowMidFreq
            / (⟨48000, Real.exp⟩ : Env ℝ).sampleRate)) ∧
    (0 < (setParameterValue (⟨48000, Real.exp⟩ : Env ℝ)
        (construct (⟨48000, Real.exp⟩ : Env ℝ) blank) .paramLowMidFreq 300).a0LP ∧
      (setParameterValue (⟨48000, Real.exp⟩ : Env ℝ)
        (construct (⟨48000, Real.exp⟩ : Env ℝ) blank) .paramLowMidFreq 300).a0LP < 1 ∧
      -1 < (setParameterValue (⟨48000, Real.exp⟩ : Env ℝ)
        (construct (⟨48000, Real.exp⟩ : Env ℝ) blank) .paramLowMidFreq 300).b1LP ∧
      (setParameterValue (⟨48000, Real.exp⟩ : Env ℝ)
        (construct (⟨48000, Real.exp⟩ : Env ℝ) blank) .paramLowMidFreq 300).b1LP < 0) ∧
    (0 < (setParameterValue (⟨48000, Real.exp⟩ : Env ℝ)
        (construct (⟨48000, Real.exp⟩ : Env ℝ) blank) .paramMidHighFreq 5000).a0HP ∧
      (setParameterValue (⟨48000, Real.exp⟩ : Env ℝ)
        (construct (⟨48000, Real.exp⟩ : Env ℝ) blank) .paramMidHighFreq 5000).a0HP < 1 ∧
      -1 < (setParameterValue (⟨48000, Real.exp⟩ : Env ℝ)
        (construct (⟨48000, Real.exp⟩ : Env ℝ) blank) .paramMidHighFreq 5000).b1HP ∧
      (setParameterValue (⟨48000, Real.exp⟩ : Env ℝ)
        (construct (⟨48000, Real.exp⟩ : Env ℝ) blank) .paramMidHighFreq 5000).b1HP < 0) :=
  ⟨(setParameterValue_coefficients ⟨48000, Real.exp⟩ (construct ⟨48000, Real.exp⟩ blank) 300
      rfl (by norm_num)).1.1,
   (setParameterValue_coefficients ⟨48000, Real.exp⟩ (construct ⟨48000, Real.exp⟩ blank) 300
      rfl (by norm_num)).1.2.2.2.2
      (by
        have h : ¬ ((48000 : ℝ) ≤ 0) := by norm_num
        simp [setParameterValue, getParameterValue, construct, deactivate, loadProgram,
          activate, h, lt_min_iff, lt_max_iff]),
   (setParameterValue_coefficients ⟨48000, Real.exp⟩ (construct ⟨48000, Real.exp⟩ blank) 5000
      rfl (by norm_num)).2.2.2.2.2
      (by
        have h : ¬ ((48000 : ℝ) ≤ 0) := by norm_num
        simp [setParameterValue, getParameterValue, construct, deactivate, loadProgram,
          activate, h, lt_min_iff, lt_max_iff])⟩

end Splitter

namespace Splitter

variable {α : Type} [LinearOrderedField α]

/-! ## Program load, activation and deactivation -/

/-- Claim C15, evaluated on the code. After `loadProgram(0)`, for every prior state and
sample rate, the low-pass coefficients come from `freqLP = 200` while the low_mid
parameter reads 220: the activation inside `loadProgram(0)` does not use the current
low-mid cutoff. The high-pass side agrees (`freqHP = fMidHighFreq = 2000`). The same
holds in the state the constructor leaves. -/
theorem loadProgram_lowpass_cutoff_mismatch (e : Env α) (s : Plugin α) :
    (loadProgram e s 0).freqLP = 200 ∧
    getParameterValue (loadProgram e s 0) .paramLowMidFreq = 220 ∧
    (loadProgram e s 0).freqLP ≠ getParameterValue (loadProgram e s 0) .paramLowMidFreq ∧
    (loadProgram e s 0).xLP = e.exp (-2 * kPI * 200 / e.sampleRate) ∧
    (loadProgram e s 0).freqHP = getParameterValue (loadProgram e s 0) .paramMidHighFreq ∧
    (construct e s).freqLP ≠ getParameterValue (construct e s) .paramLowMidFreq := by
  simp only [loadProgram, activate, getParameterValue, construct, deactivate, ne_eq,
    not_true_eq_false, if_false]
  refine ⟨trivial, trivial, ?_, trivial, trivial, ?_⟩ <;> norm_num

/-- The cutoff writes keep the filter cutoffs equal to the parameters: after
`setParameterValue(paramLowMidFreq, v)` with a positive sample rate `freqLP` is the
stored low_mid, and after `setParameterValue(paramMidHighFreq, v)` `freqHP` is the
stored mid_high. -/
theorem setParameterValue_cutoff_in_use (e : Env α) (s : Plugin α) (v : α)
    (hsr : 0 < e.sampleRate) :
    (setParameterValue e s .paramLowMidFreq v).freqLP
      = getParameterValue (setParameterValue e s .paramLowMidFreq v) .paramLowMidFreq ∧
    (setParameterValue e s .paramMidHighFreq v).freqHP
      = getParameterValue (setParameterValue e s .paramMidHighFreq v) .paramMidHighFreq := by
  have hn : ¬ e.sampleRate ≤ 0 := not_le.mpr hsr
  simp [setParameterValue, getParameterValue, hn]

/-- Function `activate` computes the coefficients from `freqLP` and `freqHP` and writes
nothing else. -/
theorem activate_uses_filter_cutoffs (e : Env α) (s : Plugin α) :
    (activate e s).xLP = e.exp (-2 * kPI * s.freqLP / e.sampleRate) ∧
    (activate e s).xHP = e.exp (-2 * kPI * s.freqHP / e.sampleRate) ∧
    (activate e s).freqLP = s.freqLP ∧ (activate e s).freqHP = s.freqHP ∧
    (activate e s).fLowMidFreq = s.fLowMidFreq ∧
    (activate e s).fMidHighFreq = s.fMidHighFreq :=
  ⟨rfl, rfl, rfl, rfl, rfl, rfl⟩

/-- Claim C16, as amended. Program load and the running filter state: for every prior
state, `loadProgram(0)` leaves the eight running filter variables exactly as they were
(it resets the parameters, gains and cutoffs and recomputes the coefficients); they
are zero after `loadProgram(0)` followed by `deactivate()`, which is what the
constructor does. -/
theorem loadProgram_running_state (e : Env α) (s : Plugin α) :
    ((loadProgram e s 0).tmp1LP = s.tmp1LP ∧ (loadProgram e s 0).tmp2LP = s.tmp2LP ∧
      (loadProgram e s 0).tmp1HP = s.tmp1HP ∧ (loadProgram e s 0).tmp2HP = s.tmp2HP ∧
      (loadProgram e s 0).out1LP = s.out1LP ∧ (loadProgram e s 0).out2LP = s.out2LP ∧
      (loadProgram e s 0).out1HP = s.out1HP ∧ (loadProgram e s 0).out2HP = s.out2HP) ∧
    ((deactivate (loadProgram e s 0)).tmp1LP = 0 ∧ (deactivate (loadProgram e s 0)).tmp2LP = 0 ∧
      (deactivate (loadProgram e s 0)).tmp1HP = 0 ∧ (deactivate (loadProgram e s 0)).tmp2HP = 0 ∧
      (deactivate (loadProgram e s 0)).out1LP = 0 ∧ (deactivate (loadProgram e s 0)).out2LP = 0 ∧
      (deactivate (loadProgram e s 0)).out1HP = 0 ∧ (deactivate (loadProgram e s 0)).out2HP = 0) ∧
    construct e s = deactivate (loadProgram e s 0) := by
  simp [loadProgram, activate, deactivate, construct]

/-- Counterexample to C16 as stated. On the sample state, whose low-pass memory of the
left channel is 5, `loadProgram(0)` leaves 5 there; and the state reached from the
constructor by one frame of `run` with input 1 on both channels has non-zero
high-pass memory, which `loadProgram(0)` leaves in place. -/
theorem loadProgram_running_state_counterexample :
    (loadProgram rateEnv unitGainState 0).tmp1LP = 5 ∧
    (loadProgram rateEnv unitGainState 0).tmp1LP ≠ 0 ∧
    (loadProgram rateEnv (run (construct rateEnv blank) (fun _ => 1) (fun _ => 1) silence 1).1
        0).tmp1HP
      = (run (construct rateEnv blank) (fun _ => 1) (fun _ => 1) silence 1).1.tmp1HP ∧
    (loadProgram rateEnv (run (construct rateEnv blank) (fun _ => 1) (fun _ => 1) silence 1).1
        0).tmp1HP ≠ 0 := by
  refine ⟨?_, ?_, ?_, ?_⟩
  · simp [loadProgram, activate, unitGainState]
  · simp [loadProgram, activate, unitGainState]
  · simp [loadProgram, activate]
  · simp only [loadProgram, activate, run, runFrame, construct, deactivate, rateEnv, blank,
      kDC_ADD, kPI, ne_eq, not_true_eq_false, if_false]
    norm_num

/-- Claim C17. Deactivation: for every state, `deactivate()` sets the eight running
filter variables to zero and leaves the six parameter values, the four linear gains,
both cutoffs and all six filter coefficients unchanged; and `deactivate` is
idempotent. -/
theorem deactivate_frame (s : Plugin α) :
    ((deactivate s).tmp1LP = 0 ∧ (deactivate s).tmp2LP = 0 ∧ (deactivate s).tmp1HP = 0 ∧
      (deactivate s).tmp2HP = 0 ∧ (deactivate s).out1LP = 0 ∧ (deactivate s).out2LP = 0 ∧
      (deactivate s).out1HP = 0 ∧ (deactivate s).out2HP = 0) ∧
    ((deactivate s).fLow = s.fLow ∧ (deactivate s).fMid = s.fMid ∧
      (deactivate s).fHigh = s.fHigh ∧ (deactivate s).fMaster = s.fMaster ∧
      (deactivate s).fLowMidFreq = s.fLowMidFreq ∧
      (deactivate s).fMidHighFreq = s.fMidHighFreq) ∧
    (∀ index, getParameterValue (deactivate s) index = getParameterValue s index) ∧
    ((deactivate s).lowVol = s.lowVol ∧ (deactivate s).midVol = s.midVol ∧
      (deactivate s).highVol = s.highVol ∧ (deactivate s).outVol = s.outVol) ∧
    ((deactivate s).freqLP = s.freqLP ∧ (deactivate s).freqHP = s.freqHP) ∧
    ((deactivate s).xLP = s.xLP ∧ (deactivate s).a0LP = s.a0LP ∧ (deactivate s).b1LP = s.b1LP ∧
      (deactivate s).xHP = s.xHP ∧ (deactivate s).a0HP = s.a0HP ∧
      (deactivate s).b1HP = s.b1HP) ∧
    deactivate (deactivate s) = deactivate s := by
  refine ⟨by simp [deactivate], by simp [deactivate], ?_, by simp [deactivate],
    by simp [deactivate], by simp [deactivate], rfl⟩
  intro index
  cases index <;> rfl

end Splitter

namespace UIBridge

/-! ## Outbound operations of the controller -/

/-- With a host context and a host that hands out a message with an attribute list,
helper `sendTo` delivers exactly the message `id` with the filled attributes. -/
theorem sendTo_delivers (h : HostReply) (s : UIVst3) (p hc : Ptr) (id : String)
    (fill : AttrList → AttrList) (hhost : s.fHostContext = some hc)
    (hres : h.res = V3Result.V3_TRUE) (hmsg : h.msg = true) (hattrs : h.attrs = true) :
    s.sendTo h p id fill
      = { s with sent := s.sent ++ [(p, { msgid := some id, attrs := some (fill []) })] } := by
  simp [UIVst3.sendTo, UIVst3.createMessage, hhost, hres, hmsg, hattrs]

/-- Without a message from the host (null host context, failed `create_instance`, null
message or null attribute list) helper `sendTo` does nothing. -/
theorem sendTo_fails (h : HostReply) (s : UIVst3) (p : Ptr) (id : String)
    (fill : AttrList → AttrList)
    (hfail : s.fHostContext = none ∨ h.res ≠ V3Result.V3_TRUE ∨ h.msg = false ∨
      h.attrs = false) :
    s.sendTo h p id fill = s := by
  unfold UIVst3.sendTo UIVst3.createMessage
  cases hh : s.fHostContext with
  | none => rfl
  | some hc =>
    by_cases h1 : h.res ≠ V3Result.V3_TRUE
    · simp [h1]
    · by_cases h2 : h.msg = false
      · simp [h2]
      · rcases hfail with h0 | h0 | h0 | h0
        · rw [hh] at h0
          exact absurd h0 (by simp)
        · exact absurd h0 h1
        · exact absurd h0 h2
        · simp [h1, h2, h0]

/-- Counterexample to C18 as stated. A controller with endpoint 7 registered keeps it
after `disconnect()` when no `close` message can be created: with a null host context,
and with a host whose `create_instance` fails. Nothing is sent, only the ready flag is
cleared. -/
theorem controller_disconnect_counterexample :
    hostlessConnected.fConnection = some 7 ∧
    (hostlessConnected.disconnect okHost).fConnection = some 7 ∧
    (hostlessConnected.disconnect okHost).sent = [] ∧
    connectedReady.fConnection = some 7 ∧
    (connectedReady.disconnect refusingHost).fConnection = some 7 ∧
    (connectedReady.disconnect refusingHost).sent = [] ∧
    (connectedReady.disconnect refusingHost).fReadyForPluginData = false := by
  decide

/-- Claim C18, as amended. Controller disconnect: for every controller state with a
registered endpoint, when the host hands out the message, `disconnect()` clears the
ready flag, delivers one `close` message carrying `__dpf_msg_target__ = 1` to that
endpoint and then clears the stored endpoint, changing nothing else; when no endpoint
is registered, `disconnect()` sends nothing and leaves the state unchanged. -/
theorem controller_disconnect (h : HostReply) (s : UIVst3) :
    (∀ p hc : Ptr, s.fConnection = some p → s.fHostContext = some hc →
      h.res = V3Result.V3_TRUE → h.msg = true → h.attrs = true →
      s.disconnect h
        = { s with
            fReadyForPluginData := false, fConnection := none,
            sent := s.sent ++
              [(p, { msgid := some "close",
                     attrs := some [("__dpf_msg_target__", .int 1)] })] }) ∧
    (s.fConnection = none → s.disconnect h = s) := by
  constructor
  · intro p hc hconn hhost hres hmsg hattrs
    simp [UIVst3.disconnect, UIVst3.createMessage, hconn, hhost, hres, hmsg, hattrs,
      AttrList.set]
  · intro hconn
    simp [UIVst3.disconnect, hconn]

/-- Witness of C18: `disconnect()` on the controller connected to endpoint 7, and on
the fresh controller, which has no endpoint. -/
theorem controller_disconnect_witness :
    (connectedReady.disconnect okHost
        = { connectedReady with
            fReadyForPluginData := false, fConnection := none,
            sent := connectedReady.sent ++
              [(7, { msgid := some "close",
                     attrs := some [("__dpf_msg_target__", .int 1)] })] }) ∧
    (fresh.disconnect okHost = fresh) :=
  ⟨(controller_disconnect okHost connectedReady).1 7 2 rfl rfl rfl rfl rfl,
   (controller_disconnect okHost fresh).2 rfl⟩

end UIBridge

namespace UIBridge

/-! ## The idle tick and the controller side of `connect` -/

/-- Claim C19, as amended. Idle tick: for every controller state, `onTimer` (and
`idleCallback`) with the ready flag set clears the flag and, when an endpoint is
registered and the host hands out the message, sends exactly one `idle` message with
`__dpf_msg_target__ = 1` to that endpoint; with no endpoint registered, or with the
ready flag clear, it sends no message; in every case the flag is clear afterwards, the
UI toolkit idle (`plugin_idle`, respectively `idleForVST3`) is pumped exactly once and
nothing else changes. -/
theorem idle_tick (h : HostReply) (s : UIVst3) :
    ((s.onTimer h).fReadyForPluginData = false ∧
      (s.onTimer h).fUI.calls = s.fUI.calls ++ [UICall.plugin_idle] ∧
      (s.fReadyForPluginData = true → ∀ p hc : Ptr, s.fConnection = some p →
        s.fHostContext = some hc → h.res = V3Result.V3_TRUE → h.msg = true →
        h.attrs = true →
        s.onTimer h
          = { s with
              fReadyForPluginData := false,
              sent := s.sent ++
                [(p, { msgid := some "idle",
                       attrs := some [("__dpf_msg_target__", .int 1)] })],
              fUI := { s.fUI with calls := s.fUI.calls ++ [UICall.plugin_idle] } }) ∧
      (s.fReadyForPluginData = false ∨ s.fConnection = none →
        s.onTimer h
          = { s with
              fReadyForPluginData := false,
              fUI := { s.fUI with calls := s.fUI.calls ++ [UICall.plugin_idle] } })) ∧
    ((s.idleCallback h).fReadyForPluginData = false ∧
      (s.idleCallback h).fUI.calls = s.fUI.calls ++ [UICall.idleForVST3] ∧
      (s.fReadyForPluginData = true → ∀ p hc : Ptr, s.fConnection = some p →
        s.fHostContext = some hc → h.res = V3Result.V3_TRUE → h.msg = true →
        h.attrs = true →
        s.idleCallback h
          = { s with
              fReadyForPluginData := false,
              sent := s.sent ++
                [(p, { msgid := some "idle",
                       attrs := some [("__dpf_msg_target__", .int 1)] })],
              fUI := { s.fUI with calls := s.fUI.calls ++ [UICall.idleForVST3] } }) ∧
      (s.fReadyForPluginData = false ∨ s.fConnection = none →
        s.idleCallback h
          = { s with
              fReadyForPluginData := false,
              fUI := { s.fUI with calls := s.fUI.calls ++ [UICall.idleForVST3] } })) := by
  have hui : ∀ t : UIVst3, (t.requestMorePluginData h).fUI = t.fUI :=
    fun t => (requestMorePluginData_cases h t).2.1
  refine ⟨⟨(onTimer_cases h s).1, ?_, ?_, ?_⟩, ⟨(idleCallback_cases h s).1, ?_, ?_, ?_⟩⟩
  · unfold UIVst3.onTimer
    cases hr : s.fReadyForPluginData <;> simp [hui]
  · intro hr p hc hconn hhost hres hmsg hattrs
    simp [UIVst3.onTimer, hr, UIVst3.requestMorePluginData, hconn, UIVst3.sendTo,
      UIVst3.createMessage, hhost, hres, hmsg, hattrs, AttrList.set]
  · intro hcase
    rcases hcase with hr | hconn
    · simp [UIVst3.onTimer, hr]
    · cases hr : s.fReadyForPluginData <;>
        simp [UIVst3.onTimer, hr, UIVst3.requestMorePluginData, hconn]
  · unfold UIVst3.idleCallback
    cases hr : s.fReadyForPluginData <;> simp [hui]
  · intro hr p hc hconn hhost hres hmsg hattrs
    simp [UIVst3.idleCallback, hr, UIVst3.requestMorePluginData, hconn, UIVst3.sendTo,
      UIVst3.createMessage, hhost, hres, hmsg, hattrs, AttrList.set]
  · intro hcase
    rcases hcase with hr | hconn
    · simp [UIVst3.idleCallback, hr]
    · cases hr : s.fReadyForPluginData <;>
        simp [UIVst3.idleCallback, hr, UIVst3.requestMorePluginData, hconn]

/-- Witness of C19: a tick on the connected controller whose flag is set, and a tick on
the fresh controller. -/
theorem idle_tick_witness :
    (connectedReady.onTimer okHost
        = { connectedReady with
            fReadyForPluginData := false,
            sent := connectedReady.sent ++
              [(7, { msgid := some "idle", attrs := some [("__dpf_msg_target__", .int 1)] })],
            fUI := { connectedReady.fUI with
                     calls := connectedReady.fUI.calls ++ [UICall.plugin_idle] } }) ∧
    (fresh.idleCallback okHost
        = { fresh with
            fReadyForPluginData := false,
            fUI := { fresh.fUI with calls := fresh.fUI.calls ++ [UICall.idleForVST3] } }) :=
  ⟨(idle_tick okHost connectedReady).1.2.2.1 rfl 7 2 rfl rfl rfl rfl rfl,
   (idle_tick okHost fresh).2.2.2.2 (Or.inl rfl)⟩

/-- Counterexample to C19 as stated. On the controller that accepted a `ready` while
no endpoint is registered, the tick finds the flag set, clears it and sends nothing. -/
theorem idle_tick_counterexample :
    (fresh.notify ⟨true, true⟩ noHeap readyMsg).1 = V3Result.V3_OK ∧
    (fresh.notify ⟨true, true⟩ noHeap readyMsg).2 = readyState ∧
    readyState.fReadyForPluginData = true ∧
    (readyState.onTimer okHost).sent = [] ∧
    (readyState.idleCallback okHost).sent = [] ∧
    (readyState.onTimer okHost).fReadyForPluginData = false := by
  decide

/-- Claim C20, as amended. Controller connect: on the UI controller, `connect(peer)`
with a non-null peer stores the peer, replacing whatever endpoint was stored, and, when
the host hands out the message, sends exactly one `init` message with
`__dpf_msg_target__ = 1` to that peer, on a first connect and on any later one alike;
`connect` with a null peer changes nothing; `reconnectIfNeeded` is `connect` with the
stored endpoint. The controller has no double-connect guard. -/
theorem controller_connect (h : HostReply) (s : UIVst3) (p : Ptr) :
    (s.connect h (some p)).fConnection = some p ∧
    (∀ hc : Ptr, s.fHostContext = some hc → h.res = V3Result.V3_TRUE → h.msg = true →
      h.attrs = true →
      s.connect h (some p)
        = { s with
            fConnection := some p,
            sent := s.sent ++
              [(p, { msgid := some "init",
                     attrs := some [("__dpf_msg_target__", .int 1)] })] }) ∧
    s.connect h none = s ∧
    (s.fConnection = some p → s.reconnectIfNeeded h = s.connect h (some p)) := by
  refine ⟨?_, ?_, rfl, ?_⟩
  · unfold UIVst3.connect
    dsimp only
    rcases sendTo_cases h { s with fConnection := some p } p "init"
      (fun a => a.set "__dpf_msg_target__" (.int 1)) with e | ⟨m, _, e⟩ <;> rw [e]
  · intro hc hhost hres hmsg hattrs
    simp [UIVst3.connect, UIVst3.sendTo, UIVst3.createMessage, hhost, hres, hmsg, hattrs,
      AttrList.set]
  · intro hconn
    simp [UIVst3.reconnectIfNeeded, hconn]

/-- Witness of C20: a first connect of endpoint 7 on the fresh controller, then a
connect of endpoint 8 with no disconnect in between. -/
theorem controller_connect_witness :
    (fresh.connect okHost (some 7)
        = { fresh with
            fConnection := some 7,
            sent := fresh.sent ++
              [(7, { msgid := some "init",
                     attrs := some [("__dpf_msg_target__", .int 1)] })] }) ∧
    ((fresh.connect okHost (some 7)).connect okHost (some 8)
        = { (fresh.connect okHost (some 7)) with
            fConnection := some 8,
            sent := (fresh.connect okHost (some 7)).sent ++
              [(8, { msgid := some "init",
                     attrs := some [("__dpf_msg_target__", .int 1)] })] }) :=
  ⟨(controller_connect okHost fresh 7).2.1 2 rfl rfl rfl rfl,
   (controller_connect okHost (fresh.connect okHost (some 7)) 8).2.1 2 rfl rfl rfl rfl⟩

/-- Counterexample to C20 as stated. A second `connect`, of endpoint 8, on the controller
that already stores endpoint 7 replaces the stored endpoint and sends a second `init`
message. -/
theorem controller_connect_counterexample :
    (fresh.connect okHost (some 7)).fConnection = some 7 ∧
    ((fresh.connect okHost (some 7)).connect okHost (some 8)).fConnection = some 8 ∧
    ((fresh.connect okHost (some 7)).connect okHost (some 8)).sent
      = [(7, { msgid := some "init", attrs := some [("__dpf_msg_target__", .int 1)] }),
         (8, { msgid := some "init", attrs := some [("__dpf_msg_target__", .int 1)] })] := by
  decide

end UIBridge

namespace Splitter

variable {α : Type} [LinearOrderedField α]

/-! ## Gain writes, cutoff write frames and dropped writes -/

/-- The argument of `std::exp` in the gain writes, `(v/48)*48/kAMP_DB`, is `v/kAMP_DB`. -/
theorem gain_exponent (v : α) : (v / 48) * 48 / kAMP_DB = v / kAMP_DB := by
  have h : (48 : α) ≠ 0 := by norm_num
  rw [div_mul_cancel₀ v h]

/-- Claim C21. Gain conversion, over the reals with the real exponential: with sample
rate `> 0`, after `setParameterValue(g, v)` for `g` one of `paramLow`, `paramMid`,
`paramHigh`, `paramMaster`, `getParameterValue(g) = v` and the matching linear gain
(`lowVol`, `midVol`, `highVol`, `outVol`) equals `exp(v / 8.656170245)`; writing 0 dB to
all four gains gives linear gains exactly 1, the gains `loadProgram(0)` sets. -/
theorem setParameterValue_gain (e : Env ℝ) (s : Plugin ℝ) (v : ℝ)
    (hexp : e.exp = Real.exp) (hsr : 0 < e.sampleRate) :
    (getParameterValue (setParameterValue e s .paramLow v) .paramLow = v ∧
      (setParameterValue e s .paramLow v).lowVol = Real.exp (v / 8.656170245)) ∧
    (getParameterValue (setParameterValue e s .paramMid v) .paramMid = v ∧
      (setParameterValue e s .paramMid v).midVol = Real.exp (v / 8.656170245)) ∧
    (getParameterValue (setParameterValue e s .paramHigh v) .paramHigh = v ∧
      (setParameterValue e s .paramHigh v).highVol = Real.exp (v / 8.656170245)) ∧
    (getParameterValue (setParameterValue e s .paramMaster v) .paramMaster = v ∧
      (setParameterValue e s .paramMaster v).outVol = Real.exp (v / 8.656170245)) ∧
    ((setParameterValue e (setParameterValue e (setParameterValue e
        (setParameterValue e s .paramLow 0) .paramMid 0) .paramHigh 0) .paramMaster 0).lowVol
        = 1 ∧
      (setParameterValue e (setParameterValue e (setParameterValue e
        (setParameterValue e s .paramLow 0) .paramMid 0) .paramHigh 0) .paramMaster 0).midVol
        = 1 ∧
      (setParameterValue e (setParameterValue e (setParameterValue e
        (setParameterValue e s .paramLow 0) .paramMid 0) .paramHigh 0) .paramMaster 0).highVol
        = 1 ∧
      (setParameterValue e (setParameterValue e (setParameterValue e
        (setParameterValue e s .paramLow 0) .paramMid 0) .paramHigh 0) .paramMaster 0).outVol
        = 1) ∧
    ((loadProgram e s 0).lowVol = 1 ∧ (loadProgram e s 0).midVol = 1 ∧
      (loadProgram e s 0).highVol = 1 ∧ (loadProgram e s 0).outVol = 1) := by
  have hn : ¬ e.sampleRate ≤ 0 := not_le.mpr hsr
  have hk : (kAMP_DB : ℝ) = 8.656170245 := by
    unfold kAMP_DB
    norm_num
  have hg : ∀ x : ℝ, e.exp ((x / 48) * 48 / kAMP_DB) = Real.exp (x / 8.656170245) := by
    intro x
    rw [gain_exponent, hexp, hk]
  have h0 : e.exp (((0 : ℝ) / 48) * 48 / kAMP_DB) = 1 := by
    rw [hg]
    simp
  refine ⟨?_, ?_, ?_, ?_, ?_, ?_⟩
  · simp only [setParameterValue, getParameterValue, hn, if_false, hg]
    exact ⟨trivial, trivial⟩
  · simp only [setParameterValue, getParameterValue, hn, if_false, hg]
    exact ⟨trivial, trivial⟩
  · simp only [setParameterValue, getParameterValue, hn, if_false, hg]
    exact ⟨trivial, trivial⟩
  · simp only [setParameterValue, getParameterValue, hn, if_false, hg]
    exact ⟨trivial, trivial⟩
  · simp only [setParameterValue, hn, if_false, h0]
    exact ⟨trivial, trivial, trivial, trivial⟩
  · simp [loadProgram, activate]

/-- Witness of C21: 6 dB written to the low gain and 0 dB to the master gain at 48 kHz,
with the real exponential. -/
theorem setParameterValue_gain_witness :
    (getParameterValue
        (setParameterValue (⟨48000, Real.exp⟩ : Env ℝ) blank .paramLow 6) .paramLow = 6 ∧
      (setParameterValue (⟨48000, Real.exp⟩ : Env ℝ) blank .paramLow 6).lowVol
        = Real.exp (6 / 8.656170245)) ∧
    (getParameterValue
        (setParameterValue (⟨48000, Real.exp⟩ : Env ℝ) blank .paramMaster 0) .paramMaster = 0 ∧
      (setParameterValue (⟨48000, Real.exp⟩ : Env ℝ) blank .paramMaster 0).outVol
        = Real.exp (0 / 8.656170245)) :=
  ⟨(setParameterValue_gain ⟨48000, Real.exp⟩ blank 6 rfl (by norm_num)).1,
   (setParameterValue_gain ⟨48000, Real.exp⟩ blank 0 rfl (by norm_num)).2.2.2.1⟩

/-- Claim C22. Cutoff write frame: with sample rate `> 0`,
`setParameterValue(paramLowMidFreq, v)` changes only `fLowMidFreq`, `freqLP`, `xLP`,
`a0LP` and `b1LP`: the mid-high cutoff, the high-pass coefficients, the four gains, the
running filter memory and every other member are unchanged; symmetrically
`setParameterValue(paramMidHighFreq, v)` changes only `fMidHighFreq`, `freqHP`, `xHP`,
`a0HP` and `b1HP`. -/
theorem setParameterValue_cutoff_frame (e : Env α) (s : Plugin α) (v : α)
    (hsr : 0 < e.sampleRate) :
    (setParameterValue e s .paramLowMidFreq v
        = { s with
            fLowMidFreq := (setParameterValue e s .paramLowMidFreq v).fLowMidFreq,
            freqLP := (setParameterValue e s .paramLowMidFreq v).freqLP,
            xLP := (setParameterValue e s .paramLowMidFreq v).xLP,
            a0LP := (setParameterValue e s .paramLowMidFreq v).a0LP,
            b1LP := (setParameterValue e s .paramLowMidFreq v).b1LP }) ∧
    ((setParameterValue e s .paramLowMidFreq v).fMidHighFreq = s.fMidHighFreq ∧
      (setParameterValue e s .paramLowMidFreq v).freqHP = s.freqHP ∧
      (setParameterValue e s .paramLowMidFreq v).xHP = s.xHP ∧
      (setParameterValue e s .paramLowMidFreq v).a0HP = s.a0HP ∧
      (setParameterValue e s .paramLowMidFreq v).b1HP = s.b1HP ∧
      (setParameterValue e s .paramLowMidFreq v).lowVol = s.lowVol ∧
      (setParameterValue e s .paramLowMidFreq v).midVol = s.midVol ∧
      (setParameterValue e s .paramLowMidFreq v).highVol = s.highVol ∧
      (setParameterValue e s .paramLowMidFreq v).outVol = s.outVol ∧
      (setParameterValue e s .paramLowMidFreq v).tmp1LP = s.tmp1LP ∧
      (setParameterValue e s .paramLowMidFreq v).tmp2LP = s.tmp2LP ∧
      (setParameterValue e s .paramLowMidFreq v).tmp1HP = s.tmp1HP ∧
      (setParameterValue e s .paramLowMidFreq v).tmp2HP = s.tmp2HP ∧
      (setParameterValue e s .paramLowMidFreq v).out1LP = s.out1LP ∧
      (setParameterValue e s .paramLowMidFreq v).out2LP = s.out2LP ∧
      (setParameterValue e s .paramLowMidFreq v).out1HP = s.out1HP ∧
      (setParameterValue e s .paramLowMidFreq v).out2HP = s.out2HP) ∧
    (setParameterValue e s .paramMidHighFreq v
        = { s with
            fMidHighFreq := (setParameterValue e s .paramMidHighFreq v).fMidHighFreq,
            freqHP := (setParameterValue e s .paramMidHighFreq v).freqHP,
            xHP := (setParameterValue e s .paramMidHighFreq v).xHP,
            a0HP := (setParameterValue e s .paramMidHighFreq v).a0HP,
            b1HP := (setParameterValue e s .paramMidHighFreq v).b1HP }) ∧
    ((setParameterValue e s .paramMidHighFreq v).fLowMidFreq = s.fLowMidFreq ∧
      (setParameterValue e s .paramMidHighFreq v).freqLP = s.freqLP ∧
      (setParameterValue e s .paramMidHighFreq v).xLP = s.xLP ∧
      (setParameterValue e s .paramMidHighFreq v).a0LP = s.a0LP ∧
      (setParameterValue e s .paramMidHighFreq v).b1LP = s.b1LP ∧
      (setParameterValue e s .paramMidHighFreq v).lowVol = s.lowVol ∧
      (setParameterValue e s .paramMidHighFreq v).midVol = s.midVol ∧
      (setParameterValue e s .paramMidHighFreq v).highVol = s.highVol ∧
      (setParameterValue e s .paramMidHighFreq v).outVol = s.outVol ∧
      (setParameterValue e s .paramMidHighFreq v).tmp1LP = s.tmp1LP ∧
      (setParameterValue e s .paramMidHighFreq v).tmp2LP = s.tmp2LP ∧
      (setParameterValue e s .paramMidHighFreq v).tmp1HP = s.tmp1HP ∧
      (setParameterValue e s .paramMidHighFreq v).tmp2HP = s.tmp2HP ∧
      (setParameterValue e s .paramMidHighFreq v).out1LP = s.out1LP ∧
      (setParameterValue e s .paramMidHighFreq v).out2LP = s.out2LP ∧
      (setParameterValue e s .paramMidHighFreq v).out1HP = s.out1HP ∧
      (setParameterValue e s .paramMidHighFreq v).out2HP = s.out2HP) := by
  have hn : ¬ e.sampleRate ≤ 0 := not_le.mpr hsr
  refine ⟨?_, ?_, ?_, ?_⟩ <;> simp [setParameterValue, hn]

/-- Witness of C22: 300 Hz written to low_mid of the sample state at 48 kHz leaves the
high-pass side and the filter memory alone; written to mid_high it leaves `xLP` alone. -/
theorem setParameterValue_cutoff_frame_witness :
    (setParameterValue rateEnv unitGainState .paramLowMidFreq 300).fMidHighFreq
        = unitGainState.fMidHighFreq ∧
    (setParameterValue rateEnv unitGainState .paramLowMidFreq 300).xHP = unitGainState.xHP ∧
    (setParameterValue rateEnv unitGainState .paramLowMidFreq 300).tmp1LP
        = unitGainState.tmp1LP ∧
    (setParameterValue rateEnv unitGainState .paramMidHighFreq 300).xLP = unitGainState.xLP :=
  ⟨(setParameterValue_cutoff_frame rateEnv unitGainState 300 (by decide)).2.1.1,
   (setParameterValue_cutoff_frame rateEnv unitGainState 300 (by decide)).2.1.2.2.1,
   (setParameterValue_cutoff_frame rateEnv unitGainState 300 (by decide)).2.1.2.2.2.2.2.2.2.2.2.1,
   (setParameterValue_cutoff_frame rateEnv unitGainState 300 (by decide)).2.2.2.2.2.1⟩

/-- Claim C24. Writes are dropped without a sample rate: in every state, when the sample
rate is `≤ 0`, `setParameterValue(index, value)` leaves the entire plugin state
unchanged for every index and value, so `getParameterValue` returns the previous value
for every index and nothing is clamped or recomputed. -/
theorem setParameterValue_dropped (e : Env α) (s : Plugin α) (index : ParamIndex) (value : α)
    (hsr : e.sampleRate ≤ 0) :
    setParameterValue e s index value = s ∧
    (∀ i, getParameterValue (setParameterValue e s index value) i = getParameterValue s i) := by
  have h : setParameterValue e s index value = s := by
    simp [setParameterValue, hsr]
  exact ⟨h, fun i => by rw [h]⟩

/-- Witness of C24: writes at sample rate 0 on the sample state. -/
theorem setParameterValue_dropped_witness :
    setParameterValue stoppedEnv unitGainState .paramLowMidFreq 3000 = unitGainState ∧
    getParameterValue (setParameterValue stoppedEnv unitGainState .paramLow 6) .paramLow
      = getParameterValue unitGainState .paramLow :=
  ⟨(setParameterValue_dropped stoppedEnv unitGainState .paramLowMidFreq 3000 (by decide)).1,
   (setParameterValue_dropped stoppedEnv unitGainState .paramLow 6 (by decide)).2 .paramLow⟩

end Splitter

namespace Splitter

variable {α : Type} [LinearOrderedField α]

/-! ## Declared defaults and ranges -/

/-- The ranges used by `cutoffInDeclaredRange` are the ones `initParameter` declares. -/
theorem cutoffInDeclaredRange_iff (k : Nat) (p : Parameter α) (v : α) :
    (cutoffInDeclaredRange .paramLowMidFreq v ↔
      (initParameter k .paramLowMidFreq p).ranges_min ≤ v ∧
        v ≤ (initParameter k .paramLowMidFreq p).ranges_max) ∧
    (cutoffInDeclaredRange .paramMidHighFreq v ↔
      (initParameter k .paramMidHighFreq p).ranges_min ≤ v ∧
        v ≤ (initParameter k .paramMidHighFreq p).ranges_max) :=
  ⟨Iff.rfl, Iff.rfl⟩

/-- A write with a positive sample rate and an in-range cutoff value keeps the low-mid
cutoff at or below 1000 and the mid-high cutoff at or above 1000. -/
theorem setParameterValue_keeps_split (e : Env α) (s : Plugin α) (index : ParamIndex)
    (v : α) (hr : cutoffInDeclaredRange index v)
    (h : s.fLowMidFreq ≤ 1000 ∧ 1000 ≤ s.fMidHighFreq) :
    (setParameterValue e s index v).fLowMidFreq ≤ 1000 ∧
    1000 ≤ (setParameterValue e s index v).fMidHighFreq := by
  unfold setParameterValue
  split
  · exact h
  · cases index with
    | paramLowMidFreq =>
      simp only [cutoffInDeclaredRange] at hr
      exact ⟨le_trans (min_le_left _ _) hr.2, h.2⟩
    | paramMidHighFreq =>
      simp only [cutoffInDeclaredRange] at hr
      exact ⟨h.1, le_trans hr.1 (le_max_left _ _)⟩
    | _ => exact h

/-- Any sequence of in-range writes keeps the cutoffs on their sides of 1000. -/
theorem applyWrites_keeps_split (ws : List (Write α)) (s : Plugin α)
    (hws : ∀ u ∈ ws, cutoffInDeclaredRange u.index u.value)
    (h : s.fLowMidFreq ≤ 1000 ∧ 1000 ≤ s.fMidHighFreq) :
    (applyWrites s ws).fLowMidFreq ≤ 1000 ∧ 1000 ≤ (applyWrites s ws).fMidHighFreq := by
  induction ws generalizing s with
  | nil => exact h
  | cons u us ih =>
    exact ih (setParameterValue u.env s u.index u.value)
      (fun x hx => hws x (List.mem_cons_of_mem _ hx))
      (setParameterValue_keeps_split u.env s u.index u.value
        (hws u (List.mem_cons_self _ _)) h)

/-- Claim C25. In-range writes are stored verbatim: starting from the state after
`loadProgram(0)`, for every sequence of `setParameterValue` calls with sample rate `> 0`
in which each low_mid value lies in `[0, 1000]` and each mid_high value in
`[1000, 20000]`, the clamp never alters a value: after each call (the last call `w` of
any such sequence `ws ++ [w]`) `getParameterValue` of the written parameter, one of
the six, returns exactly the value written. -/
theorem in_range_writes_verbatim (e : Env α) (s : Plugin α) (ws : List (Write α))
    (w : Write α)
    (hws : ∀ u ∈ ws, cutoffInDeclaredRange u.index u.value)
    (hw : cutoffInDeclaredRange w.index w.value)
    (hsr : 0 < w.env.sampleRate) (hindex : ∀ n, w.index ≠ .other n) :
    getParameterValue (applyWrites (loadProgram e s 0) (ws ++ [w])) w.index = w.value := by
  have h0 : (loadProgram e s 0).fLowMidFreq ≤ 1000 ∧ 1000 ≤ (loadProgram e s 0).fMidHighFreq := by
    simp only [loadProgram, activate, ne_eq, not_true_eq_false, if_false]
    constructor <;> norm_num
  obtain ⟨h1, h2⟩ := applyWrites_keeps_split ws (loadProgram e s 0) hws h0
  have hn : ¬ w.env.sampleRate ≤ 0 := not_le.mpr hsr
  simp only [applyWrites, List.foldl_append, List.foldl_cons, List.foldl_nil]
  change getParameterValue
    (setParameterValue w.env (applyWrites (loadProgram e s 0) ws) w.index w.value) w.index
      = w.value
  obtain ⟨env, index, value⟩ := w
  cases index with
  | paramLowMidFreq =>
    simp only [cutoffInDeclaredRange] at hw
    simp only [setParameterValue, getParameterValue, hn, if_false]
    exact min_eq_left (le_trans hw.2 h2)
  | paramMidHighFreq =>
    simp only [cutoffInDeclaredRange] at hw
    simp only [setParameterValue, getParameterValue, hn, if_false]
    exact max_eq_left (le_trans h1 hw.1)
  | other n => exact absurd rfl (hindex n)
  | _ => simp [setParameterValue, getParameterValue, hn]

/-- Witness of C25: after low_mid 1000, mid_high 1000 and low gain 30, writing 0 Hz to
low_mid stores 0, and writing 20000 Hz to mid_high stores 20000. -/
theorem in_range_writes_verbatim_witness :
    getParameterValue
        (applyWrites (loadProgram rateEnv unitGainState 0)
          (sampleWrites ++ [⟨rateEnv, .paramLowMidFreq, 0⟩])) .paramLowMidFreq = 0 ∧
    getParameterValue
        (applyWrites (loadProgram rateEnv unitGainState 0)
          (sampleWrites ++ [⟨rateEnv, .paramMidHighFreq, 20000⟩])) .paramMidHighFreq = 20000 :=
  ⟨in_range_writes_verbatim rateEnv unitGainState sampleWrites ⟨rateEnv, .paramLowMidFreq, 0⟩
      (by decide) (by decide) (by decide) (fun _ h => ParamIndex.noConfusion h),
   in_range_writes_verbatim rateEnv unitGainState sampleWrites
      ⟨rateEnv, .paramMidHighFreq, 20000⟩ (by decide) (by decide) (by decide)
      (fun _ h => ParamIndex.noConfusion h)⟩

/-- Claim C23, evaluated on the code. After `loadProgram(0)`, for every prior state, the
four gains read 0, the default `initParameter` declares, and all six parameters lie in
their declared ranges; but low_mid reads 220 where `initParameter` declares the default
440, and mid_high reads 2000 where it declares 1000. -/
theorem loadProgram_defaults_mismatch (e : Env α) (s : Plugin α) (k : Nat)
    (p : Parameter α) :
    (getParameterValue (loadProgram e s 0) .paramLowMidFreq = 220 ∧
      (initParameter k .paramLowMidFreq p).ranges_def = 440 ∧
      getParameterValue (loadProgram e s 0) .paramLowMidFreq
        ≠ (initParameter k .paramLowMidFreq p).ranges_def) ∧
    (getParameterValue (loadProgram e s 0) .paramMidHighFreq = 2000 ∧
      (initParameter k .paramMidHighFreq p).ranges_def = 1000 ∧
      getParameterValue (loadProgram e s 0) .paramMidHighFreq
        ≠ (initParameter k .paramMidHighFreq p).ranges_def) ∧
    (getParameterValue (loadProgram e s 0) .paramLow = (initParameter k .paramLow p).ranges_def ∧
      getParameterValue (loadProgram e s 0) .paramMid = (initParameter k .paramMid p).ranges_def ∧
      getParameterValue (loadProgram e s 0) .paramHigh
        = (initParameter k .paramHigh p).ranges_def ∧
      getParameterValue (loadProgram e s 0) .paramMaster
        = (initParameter k .paramMaster p).ranges_def) ∧
    (∀ index, (∀ n, index ≠ .other n) →
      (initParameter k index p).ranges_min ≤ getParameterValue (loadProgram e s 0) index ∧
      getParameterValue (loadProgram e s 0) index ≤ (initParameter k index p).ranges_max) := by
  refine ⟨?_, ?_, ?_, ?_⟩
  · simp only [loadProgram, activate, getParameterValue, initParameter, ne_eq,
      not_true_eq_false, if_false]
    refine ⟨trivial, trivial, ?_⟩
    norm_num
  · simp only [loadProgram, activate, getParameterValue, initParameter, ne_eq,
      not_true_eq_false, if_false]
    refine ⟨trivial, trivial, ?_⟩
    norm_num
  · simp [loadProgram, activate, getParameterValue, initParameter]
  · intro index hindex
    cases index with
    | other n => exact absurd rfl (hindex n)
    | _ =>
      simp only [loadProgram, activate, getParameterValue, initParameter, ne_eq,
        not_true_eq_false, if_false]
      constructor <;> norm_num

end Splitter

namespace UIBridge

/-! ## MIDI notes -/

/-- Claim C26. MIDI note encoding: for every channel `< 16` and every 8-bit note and
velocity, the 3-byte payload built by `sendNote` has `data[0] = 0x90 + channel` when
`velocity ≠ 0` and `data[0] = 0x80 + channel` when `velocity = 0`, `data[1] = note` and
`data[2] = velocity`; the high nibble of the status byte is `0x9` or `0x8` and its low
nibble is the channel; and on a connected controller whose host hands out the message,
`sendNote` delivers exactly one `midi` message carrying `__dpf_msg_target__ = 1` and
that payload as `data`. -/
theorem sendNote_payload (channel note velocity : Nat)
    (hc : channel < 16) (hn : note < 256) (hv : velocity < 256) :
    (velocity ≠ 0 → midiData channel note velocity = [0x90 + channel, note, velocity]) ∧
    (velocity = 0 → midiData channel note velocity = [0x80 + channel, note, velocity]) ∧
    ((midiData channel note velocity).getD 0 0 / 16 = (if velocity ≠ 0 then 0x9 else 0x8)) ∧
    ((midiData channel note velocity).getD 0 0 % 16 = channel) ∧
    (midiData channel note velocity).length = 3 ∧
    (∀ (h : HostReply) (s : UIVst3) (p hcx : Ptr), s.fConnection = some p →
      s.fHostContext = some hcx → h.res = V3Result.V3_TRUE → h.msg = true →
      h.attrs = true →
      s.sendNote h channel note velocity
        = { s with
            sent := s.sent ++
              [(p, { msgid := some "midi",
                     attrs := some [("__dpf_msg_target__", .int 1),
                                    ("data", .binary (midiData channel note velocity))] })] }) := by
  have hn1 : note % 256 = note := Nat.mod_eq_of_lt hn
  have hv1 : velocity % 256 = velocity := Nat.mod_eq_of_lt hv
  refine ⟨?_, ?_, ?_, ?_, rfl, ?_⟩
  · intro hvel
    simp only [midiData, hvel, ne_eq, not_false_eq_true, if_true, hn1, hv1]
    interval_cases channel <;> rfl
  · intro hvel
    subst hvel
    simp only [midiData, ne_eq, not_true_eq_false, if_false, hn1]
    interval_cases channel <;> rfl
  · by_cases hvel : velocity = 0
    · simp only [midiData, hvel, ne_eq, not_true_eq_false, if_false, List.getD_cons_zero]
      interval_cases channel <;> rfl
    · simp only [midiData, hvel, ne_eq, not_false_eq_true, if_true, List.getD_cons_zero]
      interval_cases channel <;> rfl
  · by_cases hvel : velocity = 0
    · simp only [midiData, hvel, ne_eq, not_true_eq_false, if_false, List.getD_cons_zero]
      interval_cases channel <;> rfl
    · simp only [midiData, hvel, ne_eq, not_false_eq_true, if_true, List.getD_cons_zero]
      interval_cases channel <;> rfl
  · intro h s p hcx hconn hhost hres hmsg hattrs
    simp [UIVst3.sendNote, hconn, UIVst3.sendTo, UIVst3.createMessage, hhost, hres, hmsg,
      hattrs, AttrList.set]

/-- Witness of C26: note 60 on channel 5, with velocity 100 (note-on `0x95`) and with
velocity 0 (note-off `0x85`), and the message the connected controller delivers. -/
theorem sendNote_payload_witness :
    midiData 5 60 100 = [0x90 + 5, 60, 100] ∧
    midiData 5 60 0 = [0x80 + 5, 60, 0] ∧
    connectedState.sendNote okHost 5 60 100
      = { connectedState with
          sent := connectedState.sent ++
            [(7, { msgid := some "midi",
                   attrs := some [("__dpf_msg_target__", .int 1),
                                  ("data", .binary (midiData 5 60 100))] })] } :=
  ⟨(sendNote_payload 5 60 100 (by decide) (by decide) (by decide)).1 (by decide),
   (sendNote_payload 5 60 0 (by decide) (by decide) (by decide)).2.1 rfl,
   (sendNote_payload 5 60 100 (by decide) (by decide) (by decide)).2.2.2.2.2
      okHost connectedState 7 2 rfl rfl rfl rfl rfl⟩

/-! ## Alias safety of the in-place narrowing -/

end UIBridge

namespace Splitter

/-! ## The coefficient bounds in `float` -/

/-- Rounded to `float`, the exponential of an argument between `-2^-25` and 0 is 1. -/
theorem roundFloatUnit_exp_eq_one (y : ℝ) (h1 : -(1 / 2 ^ 25) ≤ y) (h2 : y ≤ 0) :
    roundFloatUnit (Real.exp y) = 1 := by
  have hlow : y + 1 ≤ Real.exp y := Real.add_one_le_exp y
  have hhigh : Real.exp y ≤ 1 := Real.exp_le_one_iff.mpr h2
  have hfloor : ⌊Real.exp y * 2 ^ 24 + 1 / 2⌋ = 2 ^ 24 := by
    rw [Int.floor_eq_iff]
    constructor
    · push_cast
      nlinarith
    · push_cast
      nlinarith
  unfold roundFloatUnit
  rw [hfloor]
  push_cast
  norm_num

/-- Counterexample to C14 as stated. With `std::exp` delivering a `float`, the real
exponential rounded to the nearest `float`, writing the low-mid cutoff `0.0001` Hz at
48 kHz on the state the constructor leaves stores a cutoff `> 0` and gives `xLP = 1`,
`a0LP = 0` and `b1LP = -1`: neither `0 < a0` nor `-1 < b1` holds. -/
theorem setParameterValue_coefficients_counterexample :
    0 < getParameterValue
      (setParameterValue (⟨48000, fun y => roundFloatUnit (Real.exp y)⟩ : Env ℝ)
        (construct (⟨48000, fun y => roundFloatUnit (Real.exp y)⟩ : Env ℝ) blank)
        .paramLowMidFreq (1 / 10000)) .paramLowMidFreq ∧
    (setParameterValue (⟨48000, fun y => roundFloatUnit (Real.exp y)⟩ : Env ℝ)
        (construct (⟨48000, fun y => roundFloatUnit (Real.exp y)⟩ : Env ℝ) blank)
        .paramLowMidFreq (1 / 10000)).xLP = 1 ∧
    (setParameterValue (⟨48000, fun y => roundFloatUnit (Real.exp y)⟩ : Env ℝ)
        (construct (⟨48000, fun y => roundFloatUnit (Real.exp y)⟩ : Env ℝ) blank)
        .paramLowMidFreq (1 / 10000)).a0LP = 0 ∧
    (setParameterValue (⟨48000, fun y => roundFloatUnit (Real.exp y)⟩ : Env ℝ)
        (construct (⟨48000, fun y => roundFloatUnit (Real.exp y)⟩ : Env ℝ) blank)
        .paramLowMidFreq (1 / 10000)).b1LP = -1 ∧
    ¬ (0 < (setParameterValue (⟨48000, fun y => roundFloatUnit (Real.exp y)⟩ : Env ℝ)
        (construct (⟨48000, fun y => roundFloatUnit (Real.exp y)⟩ : Env ℝ) blank)
        .paramLowMidFreq (1 / 10000)).a0LP) ∧
    ¬ (-1 < (setParameterValue (⟨48000, fun y => roundFloatUnit (Real.exp y)⟩ : Env ℝ)
        (construct (⟨48000, fun y => roundFloatUnit (Real.exp y)⟩ : Env ℝ) blank)
        .paramLowMidFreq (1 / 10000)).b1LP) := by
  have hsr : ¬ ((48000 : ℝ) ≤ 0) := by norm_num
  have hmin : min (1 / 10000 : ℝ) 2000 = 1 / 10000 := min_eq_left (by norm_num)
  have hx : roundFloatUnit (Real.exp (-2 * kPI * (1 / 10000) / 48000)) = 1 :=
    roundFloatUnit_exp_eq_one _ (by unfold kPI; norm_num) (by unfold kPI; norm_num)
  simp only [setParameterValue, getParameterValue, construct, deactivate, loadProgram,
    activate, hsr, if_false, ne_eq, not_true_eq_false, hmin, hx]
  norm_num

end Splitter
